import Mathlib

/-!
Verification of the retrieval/matching core of `mcp-server/server.py`:
the SUBSYSTEMS index, the AGENTS registry, and the query operations
`suggest_agent`, `find_relevant_context`, `get_files_for_subsystem` and
`search_context_documents`.

Modelling conventions:
* Python strings are modelled as `String` / `List Char`; `str.lower`
  becomes `Char.toLower` applied pointwise, and the regex word class `\w`
  becomes ASCII letters, digits and underscore (the registry data and the
  inputs of interest are ASCII).
* Python float scores are modelled by exact fractions (`Frac`): every
  score the code produces is a finite sum of terms `k * (1 + 1/c)` and
  `1/2`, and every comparison the code performs (`>`, `>=`, `==`) is
  modelled by exact cross-multiplication arithmetic on such fractions.
* `list.sort(key=..., reverse=True)` (a stable descending sort) is
  modelled by the stable insertion sort `sortOnDesc`.
* The documentation directory read by `search_context_documents` is
  modelled as a list of named documents, each either readable (`some
  content`) or failing to read (`none`).
-/

/-- Word characters of the regex class `\w` used by
`re.findall(r'\b\w+\b', task_lower)` (ASCII fragment). -/
def isWordChar (c : Char) : Bool := c.isAlphanum || c == '_'

/-- Lower-cased character list of a string (models `str.lower`). -/
def lowerL (s : String) : List Char := s.toList.map Char.toLower

/-- Lower-case a character list pointwise. -/
def lowerList (cs : List Char) : List Char := cs.map Char.toLower

/-- Test whether the first list is a leading segment of the second. -/
def headMatches : List Char → List Char → Bool
  | [], _ => true
  | _ :: _, [] => false
  | a :: as, b :: bs => a == b && headMatches as bs

/-- Python's `needle in hay` substring test on character lists. -/
def occursIn : List Char → List Char → Bool
  | n, [] => n.isEmpty
  | n, c :: t => headMatches n (c :: t) || occursIn n t

/-- Accumulator-based splitter into maximal runs of word characters. -/
def tokenizeAux : List Char → List Char → List (List Char)
  | [], acc => if acc.isEmpty then [] else [acc.reverse]
  | c :: cs, acc =>
    if isWordChar c then tokenizeAux cs (c :: acc)
    else if acc.isEmpty then tokenizeAux cs []
    else acc.reverse :: tokenizeAux cs []

/-- Maximal runs of word characters: models `re.findall(r'\b\w+\b', text)`. -/
def tokenize (cs : List Char) : List (List Char) := tokenizeAux cs []

/-- Accumulator-based splitter into maximal runs of non-whitespace. -/
def splitWsAux : List Char → List Char → List (List Char)
  | [], acc => if acc.isEmpty then [] else [acc.reverse]
  | c :: cs, acc =>
    if c.isWhitespace then
      (if acc.isEmpty then splitWsAux cs [] else acc.reverse :: splitWsAux cs [])
    else splitWsAux cs (c :: acc)

/-- Whitespace split dropping empty parts: models Python's `str.split()`. -/
def splitWs (cs : List Char) : List (List Char) := splitWsAux cs []

/-- Exact fraction with a positive denominator.  Models the Python float
scores of `suggest_agent`: all produced values are exact small rationals,
and all float comparisons performed by the code are modelled by exact
cross-multiplication comparisons below. -/
structure Frac where
  num : Int
  den : PNat

/-- Integer denominator of a fraction. -/
def Frac.di (a : Frac) : Int := ((a.den : Nat) : Int)

/-- Embed a natural number. -/
def Frac.ofNat (n : Nat) : Frac := ⟨n, 1⟩

/-- Exact addition (denominators multiply; no normalisation needed). -/
def Frac.add (a b : Frac) : Frac := ⟨a.num * b.di + b.num * a.di, a.den * b.den⟩

/-- Multiplication by a natural number. -/
def Frac.mulNat (k : Nat) (a : Frac) : Frac := ⟨(k : Int) * a.num, a.den⟩

/-- Exact `<` by cross multiplication. -/
def Frac.lt (a b : Frac) : Bool := decide (a.num * b.di < b.num * a.di)

/-- Exact `≤` by cross multiplication. -/
def Frac.le (a b : Frac) : Bool := decide (a.num * b.di ≤ b.num * a.di)

/-- Exact `==` by cross multiplication. -/
def Frac.eqb (a b : Frac) : Bool := decide (a.num * b.di = b.num * a.di)

/-- Rational value of a fraction. -/
def Frac.toRat (a : Frac) : ℚ := (a.num : ℚ) / ((a.den : Nat) : ℚ)

/-- Subsystem record: one entry of the SUBSYSTEMS table. -/
structure Subsystem where
  key : String
  name : String
  description : String
  keywords : List String
  files : List String
deriving DecidableEq, Repr

/-- Agent record: one entry of the AGENTS registry. -/
structure Agent where
  id : String
  name : String
  description : String
  triggers : List String
  model : String
deriving DecidableEq, Repr

/-- Subsystem record for key "ecs" of the SUBSYSTEMS table in server.py. -/
def subEcs : Subsystem :=
  { key := "ecs",
    name := "ECS (Entity Component System)",
    description := "Arch ECS framework with components and systems",
    keywords := [ "entity",
      "component",
      "system",
      "archetype",
      "query",
      "world" ],
    files := [ "GameContext.cs",
      "ECS/Archetypes/EntityFactory.cs",
      "ECS/Components/",
      "ECS/Systems/",
      ".claude/context/interactable-system.md",
      ".claude/context/architecture.md" ] }

/-- Subsystem record for key "services" of the SUBSYSTEMS table in server.py. -/
def subServices : Subsystem :=
  { key := "services",
    name := "Service Layer",
    description := "Dependency injection and core services",
    keywords := [ "service",
      "container",
      "injection",
      "interface",
      "collision",
      "spatial",
      "content",
      "audio",
      "profile",
      "save",
      "damage",
      "feedback",
      "lighting",
      "shader",
      "input" ],
    files := [ "Services/ServiceContainer.cs",
      "Services/Interfaces/",
      "Services/Implementation/" ] }

/-- Subsystem record for key "game-states" of the SUBSYSTEMS table in server.py. -/
def subGameStates : Subsystem :=
  { key := "game-states",
    name := "Game States",
    description := "State machine for game modes, menus, and lobby",
    keywords := [ "state",
      "menu",
      "lobby",
      "survival",
      "adventure",
      "defense",
      "payload",
      "boss",
      "hub",
      "shop",
      "playmenu",
      "profile",
      "multiplayer" ],
    files := [ "GameStates/IGameState.cs",
      "GameStates/GameStateManager.cs",
      "GameStates/States/",
      "Services/Implementation/ProfileService.cs",
      "Services/Interfaces/IProfileService.cs",
      ".claude/context/save-system.md" ] }

/-- Subsystem record for key "networking" of the SUBSYSTEMS table in server.py. -/
def subNetworking : Subsystem :=
  { key := "networking",
    name := "Networking",
    description := "Multiplayer networking with host-authoritative P2P model and MessagePack serialization",
    keywords := [ "network",
      "multiplayer",
      "sync",
      "snapshot",
      "interpolation",
      "message",
      "transport",
      "lobby",
      "host",
      "client",
      "authority",
      "damage report",
      "play mode",
      "offline",
      "online",
      "couch coop",
      "local multiplayer",
      "messagepack",
      "serialization",
      "serialize",
      "deserialize" ],
    files := [ "Network/NetworkService.cs",
      "Network/INetworkService.cs",
      "Network/NetworkHelper.cs",
      "Network/Transport/",
      "Network/Messages/",
      "Network/Messages/DamageMessages.cs",
      "Network/Messages/PowerUpMessages.cs",
      "Network/Sync/",
      "ECS/Systems/NetworkSyncSystem.cs",
      "ECS/Systems/NetworkSpawnSystem.cs",
      "ECS/Systems/NetworkInputSystem.cs",
      "ECS/Systems/DamageAuthoritySystem.cs",
      ".claude/context/play-modes.md",
      ".claude/context/play-mode-testing.md",
      ".claude/context/ui-sync-patterns.md",
      ".claude/context/network-operations.md",
      ".claude/context/network-determinism-architecture.md",
      ".claude/context/network-multiplayer-system.md" ] }

/-- Subsystem record for key "physics" of the SUBSYSTEMS table in server.py. -/
def subPhysics : Subsystem :=
  { key := "physics",
    name := "Physics & Collision",
    description := "Physics simulation and collision detection",
    keywords := [ "physics",
      "collision",
      "velocity",
      "force",
      "knockback",
      "spatial",
      "raycast",
      "obstacle" ],
    files := [ "ECS/Systems/PhysicsSystem.cs",
      "Services/Implementation/CollisionService.cs",
      "Services/Implementation/SpatialService.cs",
      "Services/Interfaces/ICollisionService.cs",
      "Services/Interfaces/ISpatialService.cs",
      ".claude/context/enemy-collision-physics.md" ] }

/-- Subsystem record for key "rendering" of the SUBSYSTEMS table in server.py. -/
def subRendering : Subsystem :=
  { key := "rendering",
    name := "Rendering",
    description := "Sprite rendering, animation, camera, and procedural shape generation (SkiaSharp)",
    keywords := [ "render",
      "sprite",
      "animation",
      "camera",
      "draw",
      "texture",
      "particle",
      "trail",
      "skiasharp",
      "procedural",
      "shape",
      "rounded",
      "gradient",
      "ninepatch",
      "9-slice",
      "emoji" ],
    files := [ "ECS/Systems/SpriteRenderSystem.cs",
      "ECS/Systems/AnimationSystem.cs",
      "ECS/Systems/ParticleSystem.cs",
      "Camera/",
      "Rendering/",
      "Rendering/SkiaShapeFactory.cs",
      "Rendering/EmojiTextureGenerator.cs",
      "UI/NinePatch.cs",
      ".claude/context/floating-text.md",
      ".claude/context/coordinate-systems.md",
      ".claude/context/vfx-particle-system.md" ] }

/-- Subsystem record for key "ai" of the SUBSYSTEMS table in server.py. -/
def subAi : Subsystem :=
  { key := "ai",
    name := "AI System",
    description := "Enemy AI behaviors and enemy archetype designs",
    keywords := [ "ai",
      "behavior",
      "chase",
      "wander",
      "flee",
      "enemy",
      "aggro",
      "target",
      "archetype",
      "saboteur",
      "bloater",
      "ironclad",
      "hexweaver",
      "bonecaller",
      "webspinner",
      "blinkfiend",
      "phaselurk" ],
    files := [ "ECS/Systems/AISystem.cs",
      "ECS/Components/AIComponent.cs",
      ".claude/context/enemy-archetypes.md" ] }

/-- Subsystem record for key "combat" of the SUBSYSTEMS table in server.py. -/
def subCombat : Subsystem :=
  { key := "combat",
    name := "Combat",
    description := "Combat, projectiles, abilities, damage, ghost mode, and deterministic RNG",
    keywords := [ "combat",
      "damage",
      "health",
      "projectile",
      "ability",
      "attack",
      "weapon",
      "powerup",
      "death",
      "kill",
      "ghost",
      "spectator",
      "crit",
      "critical",
      "proc",
      "rng",
      "deterministic",
      "combatRng",
      "shotNumber",
      "subIndex",
      "timeBucket" ],
    files := [ "ECS/Systems/CombatSystem.cs",
      "ECS/Systems/ProjectileSystem.cs",
      "ECS/Systems/HealthSystem.cs",
      "ECS/Systems/AbilitySystem.cs",
      "ECS/Systems/DamageAuthoritySystem.cs",
      "ECS/Components/Combat/CombatComponent.cs",
      "ECS/Components/Combat/HealthComponent.cs",
      "ECS/Components/Combat/ProjectileComponent.cs",
      "ECS/Components/Player/AbilitiesComponent.cs",
      "Services/Interfaces/IDamageService.cs",
      "Services/Interfaces/ICombatFeedbackService.cs",
      "Services/Implementation/DamageService.cs",
      "Services/Implementation/CombatFeedbackService.cs",
      "Network/Messages/DamageMessages.cs",
      "Simulation/CombatRng.cs",
      "ECS/Data/ProjectileData.cs",
      "ECS/Data/ProjectileSpawnParams.cs",
      ".claude/context/ghost-mode.md",
      ".claude/context/enemy-combat-system.md",
      ".claude/context/ability-implementation.md" ] }

/-- Subsystem record for key "turbo" of the SUBSYSTEMS table in server.py. -/
def subTurbo : Subsystem :=
  { key := "turbo",
    name := "Turbo System",
    description := "3-bar turbo gauge: dodge (i-frames, destructible breaking) and hold-to-charge abilities (TurboShot, StompAoE, TurboBall)",
    keywords := [ "turbo",
      "dash",
      "dodge",
      "invulnerable",
      "i-frame",
      "iframes",
      "turboshot",
      "turboball",
      "stomp",
      "charge",
      "recharge",
      "gauge" ],
    files := [ "ECS/Components/Player/TurboGaugeComponent.cs",
      "ECS/Components/Player/TurboAbilityConfigComponent.cs",
      "ECS/Systems/TurboRechargeSystem.cs",
      "ECS/Systems/TurboDashSystem.cs",
      "ECS/Systems/TurboAbilitySystem.cs",
      "Services/Implementation/DamageService.cs",
      "UI/RadialDial/TurboGaugeRenderer.cs",
      ".claude/context/turbo-system.md" ] }

/-- Subsystem record for key "damage" of the SUBSYSTEMS table in server.py. -/
def subDamage : Subsystem :=
  { key := "damage",
    name := "Damage Authority",
    description := "Host-authoritative damage validation and health synchronization",
    keywords := [ "damage",
      "health",
      "authority",
      "validate",
      "sync",
      "prediction",
      "reconciliation",
      "death",
      "kill",
      "batch" ],
    files := [ "ECS/Systems/DamageAuthoritySystem.cs",
      "ECS/Systems/CombatSystem.cs",
      "Services/Interfaces/IDamageService.cs",
      "Services/Implementation/DamageService.cs",
      "Services/Interfaces/ICombatFeedbackService.cs",
      "Services/Implementation/CombatFeedbackService.cs",
      "Network/Messages/DamageMessages.cs",
      "ECS/Components/Combat/HealthComponent.cs",
      ".claude/context/host-authoritative-damage-spec.md" ] }

/-- Subsystem record for key "spawning" of the SUBSYSTEMS table in server.py. -/
def subSpawning : Subsystem :=
  { key := "spawning",
    name := "Spawning",
    description := "Enemy and powerup spawning systems",
    keywords := [ "spawn",
      "wave",
      "enemy",
      "powerup",
      "spawner" ],
    files := [ "ECS/Systems/SpawnSystem.cs",
      "ECS/Systems/NetworkSpawnSystem.cs",
      "ECS/Components/SpawnerComponent.cs" ] }

/-- Subsystem record for key "boss" of the SUBSYSTEMS table in server.py. -/
def subBoss : Subsystem :=
  { key := "boss",
    name := "Boss Fight Framework",
    description := "Multi-phase boss fights with attack pools, minion spawning, enrage, vulnerability, and shield mechanics",
    keywords := [ "boss",
      "phase",
      "enrage",
      "vulnerability",
      "shield",
      "minion",
      "signature",
      "attack pool",
      "multi-phase",
      "infernus",
      "dragon" ],
    files := [ "ECS/Components/Enemy/BossComponent.cs",
      "ECS/Components/Enemy/BossAttackPoolComponent.cs",
      "ECS/Components/Enemy/BossAttackStateComponent.cs",
      "ECS/Components/Enemy/BossMinionComponent.cs",
      "ECS/Systems/BossAbilitySystem.cs",
      "ECS/Systems/BossAttackSystem.cs",
      "Content/Definitions/BossDefinition.cs",
      "Content/Data/bosses.json",
      ".claude/context/boss-fight-framework.md",
      ".claude/context/dragon-boss-system.md" ] }

/-- Subsystem record for key "dungeon-generation" of the SUBSYSTEMS table in server.py. -/
def subDungeonGeneration : Subsystem :=
  { key := "dungeon-generation",
    name := "Procedural Dungeon Generation",
    description := "BSP + Graph-based procedural dungeon generator for Adventure mode",
    keywords := [ "dungeon",
      "procedural",
      "generation",
      "bsp",
      "room",
      "corridor",
      "graph",
      "path",
      "secret",
      "template",
      "micro-template",
      "populator",
      "adventure",
      "level",
      "tile",
      "door",
      "key",
      "treasure",
      "validation",
      "connectivity",
      "loop",
      "interconnected",
      "dead-end",
      "target" ],
    files := [ "Procedural/IDungeonGenerator.cs",
      "Procedural/DungeonGenerationService.cs",
      "Procedural/DungeonConfigLoader.cs",
      "Procedural/DungeonResult.cs",
      "Procedural/BSP/",
      "Procedural/Graph/",
      "Procedural/Rooms/",
      "Procedural/Validation/",
      "Procedural/Population/",
      "Procedural/Templates/",
      "Content/Definitions/DungeonDefinition.cs",
      "Content/Definitions/MicroTemplateDefinition.cs",
      "GameStates/States/AdventureState.cs",
      ".claude/context/dungeon-generation.md" ] }

/-- Subsystem record for key "input" of the SUBSYSTEMS table in server.py. -/
def subInput : Subsystem :=
  { key := "input",
    name := "Input",
    description := "Input handling with keyboard, mouse, and gamepad support including isometric rotation",
    keywords := [ "input",
      "keyboard",
      "controller",
      "gamepad",
      "controls",
      "isometric",
      "rotation",
      "direction",
      "wasd",
      "cardinal" ],
    files := [ "Input/",
      "ECS/Systems/InputSystem.cs",
      "Services/Interfaces/IInputService.cs",
      "Services/Implementation/InputService.cs",
      ".claude/context/input-system.md" ] }

/-- Subsystem record for key "aiming" of the SUBSYSTEMS table in server.py. -/
def subAiming : Subsystem :=
  { key := "aiming",
    name := "Aiming System",
    description := "Mouse/gamepad aiming with isometric coordinate transforms, camera timing, and network determinism",
    keywords := [ "aim",
      "aiming",
      "mouse",
      "target",
      "fire",
      "shoot",
      "projectile",
      "screen",
      "world",
      "coordinate",
      "isometric",
      "camera",
      "determinism",
      "autofire",
      "manual" ],
    files := [ "ECS/Systems/ProjectileSystem.cs",
      "ECS/Systems/CameraSystem.cs",
      "Services/Implementation/InputService.cs",
      "Rendering/IsometricGridHelper.cs",
      "Camera/Camera2D.cs",
      "Input/PlayerInput.cs",
      "Input/InputCommand.cs",
      ".claude/context/aiming-system.md" ] }

/-- Subsystem record for key "devtools" of the SUBSYSTEMS table in server.py. -/
def subDevtools : Subsystem :=
  { key := "devtools",
    name := "Developer Tools",
    description := "CLI utilities for testing, debugging, dungeon preview, HUD preview, headless rendering, layout validation, screenshot capture, and entity state dumping",
    keywords := [ "devtools",
      "debug",
      "preview",
      "dungeon",
      "seed",
      "network",
      "test",
      "export",
      "verbose",
      "png",
      "image",
      "ascii",
      "csv",
      "visualization",
      "hud",
      "headless",
      "render",
      "screenshot",
      "dump",
      "validate",
      "font" ],
    files := [ "../GameProject.DevTools/Program.cs",
      "../GameProject.DevTools/DungeonPreview/DungeonPreviewRunner.cs",
      "../GameProject.DevTools/DungeonPreview/DungeonPreviewConfig.cs",
      "../GameProject.DevTools/DungeonPreview/DungeonImageExporter.cs",
      "../GameProject.DevTools/NetworkTesting/MultiClientLauncher.cs",
      "../GameProject.DevTools/HudPreview/HudPreviewRunner.cs",
      "../GameProject.DevTools/HudPreview/HudPreviewConfig.cs",
      "../GameProject.DevTools/HudPreview/SkiaHudRenderer.cs",
      "../GameProject.DevTools/HudPreview/HudPresets.cs",
      "../GameProject.DevTools/HudPreview/LayoutValidator.cs",
      "../GameProject.DevTools/Render/HeadlessRenderer.cs",
      "../GameProject.DevTools/Render/RenderConfig.cs",
      "UI/Debug/DebugCommandRegistry.cs",
      "Services/Implementation/ContentService.cs",
      ".claude/context/test-arena.md",
      ".claude/context/changelog-devlog.md" ] }

/-- Subsystem record for key "dungeon-debug" of the SUBSYSTEMS table in server.py. -/
def subDungeonDebug : Subsystem :=
  { key := "dungeon-debug",
    name := "Dungeon Debug & Export",
    description := "In-game debug overlay rendering, dungeon export to PNG/text/JSON, metadata logging",
    keywords := [ "debug",
      "overlay",
      "render",
      "export",
      "metadata",
      "json",
      "png",
      "text",
      "visualization",
      "dungeon",
      "room",
      "corridor",
      "spawner",
      "portal" ],
    files := [ "Procedural/Debug/DungeonDebugRenderer.cs",
      "Procedural/Debug/DungeonExportService.cs" ] }

/-- Subsystem record for key "debug-console" of the SUBSYSTEMS table in server.py. -/
def subDebugConsole : Subsystem :=
  { key := "debug-console",
    name := "Debug Console",
    description := "In-game debug console for testing and development (F12 or backtick to toggle)",
    keywords := [ "debug",
      "console",
      "command",
      "spawn",
      "powerup",
      "godmode",
      "kill",
      "cheat" ],
    files := [ "UI/Debug/DebugConsole.cs",
      "UI/Debug/IDebugCommand.cs",
      "UI/Debug/DebugCommandRegistry.cs" ] }

/-- Subsystem record for key "tiled-templates" of the SUBSYSTEMS table in server.py. -/
def subTiledTemplates : Subsystem :=
  { key := "tiled-templates",
    name := "Tiled Room Templates",
    description := "Hand-crafted room templates from Tiled Map Editor for dungeon generation",
    keywords := [ "tiled",
      "template",
      "tmx",
      "tsx",
      "room",
      "boss",
      "treasure",
      "secret",
      "tileset",
      "map",
      "editor",
      "hand-crafted" ],
    files := [ "Procedural/Templates/TiledRoomLoader.cs",
      "Procedural/Templates/RoomTemplateRegistry.cs",
      "Procedural/Templates/RoomTemplateDefinition.cs",
      "Procedural/Population/Populators/RoomTemplatePopulator.cs",
      "Content/Tiled/" ] }

/-- Subsystem record for key "content" of the SUBSYSTEMS table in server.py. -/
def subContent : Subsystem :=
  { key := "content",
    name := "Content & Assets",
    description := "Asset loading and management, art pipeline (Meshy, Blender, atlas packing)",
    keywords := [ "content",
      "asset",
      "texture",
      "font",
      "sound",
      "definition",
      "load",
      "pipeline",
      "meshy",
      "blender",
      "atlas" ],
    files := [ "Services/Implementation/ContentService.cs",
      "Services/Interfaces/IContentService.cs",
      "Content/",
      ".claude/context/art-pipeline.md",
      ".claude/context/tiledlib-api.md" ] }

/-- Subsystem record for key "audio" of the SUBSYSTEMS table in server.py. -/
def subAudio : Subsystem :=
  { key := "audio",
    name := "Audio System",
    description := "Sound effect loading, playback, and WAV generation for MonoGame",
    keywords := [ "audio",
      "sound",
      "wav",
      "sfx",
      "music",
      "play",
      "volume",
      "soundeffect",
      "soundnames" ],
    files := [ "Services/Implementation/ContentService.cs",
      "Services/Audio/SoundNames.cs",
      "Content/Audio/",
      ".claude/context/audio-system.md" ] }

/-- Subsystem record for key "collectibles" of the SUBSYSTEMS table in server.py. -/
def subCollectibles : Subsystem :=
  { key := "collectibles",
    name := "Collectible System",
    description := "Instant and permanent pickup effects: StatScroll, Food, Stopwatch, LevelUpBook, APOrb. Drops from enemies via JSON-driven drop tables.",
    keywords := [ "collectible",
      "pickup",
      "statscroll",
      "scroll",
      "food",
      "heal",
      "stopwatch",
      "cooldown",
      "levelbook",
      "level up",
      "ap orb",
      "augment",
      "permanent",
      "instant",
      "tier",
      "minor",
      "standard",
      "greater",
      "snack",
      "meal",
      "feast",
      "drop",
      "loot",
      "drop table",
      "enemy drop",
      "boss drop",
      "elite drop" ],
    files := [ "ECS/Components/Combat/CollectibleComponent.cs",
      "ECS/Systems/CollectibleSystem.cs",
      "ECS/Systems/CombatSystem.cs",
      "Network/Messages/CollectibleMessages.cs",
      "Content/Definitions/CollectibleDefinition.cs",
      "Content/Data/collectibles.json",
      ".claude/context/collectible-system.md",
      ".claude/context/drop-system.md" ] }

/-- Subsystem record for key "core-fusion" of the SUBSYSTEMS table in server.py. -/
def subCoreFusion : Subsystem :=
  { key := "core-fusion",
    name := "Core & Fusion System",
    description := "Equipment system: Orbs + Mods fused into Cores. PowerLevel (1-5) on all items via augment tokens. SlotBasedEquipment (3+3 slots).",
    keywords := [ "core",
      "orb",
      "mod",
      "fusion",
      "forge",
      "equipment",
      "equip",
      "slot",
      "rarity",
      "item",
      "stat",
      "ability",
      "element",
      "fire",
      "ice",
      "lightning",
      "earth",
      "void",
      "light",
      "dark",
      "nature",
      "splitshot",
      "explosive",
      "homing",
      "piercing",
      "critical",
      "lifesteal",
      "powerlevel",
      "augment",
      "token",
      "upgrade" ],
    files := [ "Core/CoreComponent.cs",
      "Core/Orb.cs",
      "Core/Mod.cs",
      "Core/Core.cs",
      "Core/SlotBasedEquipment.cs",
      "Core/AugmentToken.cs",
      "Core/FusionTypes.cs",
      "Core/CoreDefinitions.cs",
      "ECS/Components/Player/CoreStatsComponent.cs",
      "ECS/Systems/CoreAbilitySystem.cs",
      "ECS/Systems/CollectibleSystem.cs",
      "UI/Victory/VictoryPanelState.cs",
      "UI/Victory/Logic/VictoryShopLogic.cs",
      "UI/Victory/Logic/VictoryInputHandler.cs",
      "UI/Victory/Tabs/FusionTabRenderer.cs",
      "UI/RadialDial/RadialDialService.cs",
      ".claude/context/item-system.md" ] }

/-- Subsystem record for key "ui" of the SUBSYSTEMS table in server.py. -/
def subUi : Subsystem :=
  { key := "ui",
    name := "UI Framework",
    description := "Unified UI drawing primitives, color palette, scaling, HUD widgets, overlays, and NinePatch panels",
    keywords := [ "ui",
      "hud",
      "draw",
      "panel",
      "button",
      "overlay",
      "menu",
      "widget",
      "color",
      "scale",
      "scaledui",
      "uicolors",
      "uidrawhelpers",
      "uistyles",
      "ninepatch",
      "9-slice",
      "spritebatch",
      "font",
      "text",
      "progress bar",
      "buff bar",
      "player widget",
      "radial dial",
      "tooltip",
      "pause",
      "victory",
      "gameover",
      "shop",
      "lobby",
      "skiashapefactory" ],
    files := [ "UI/UIColors.cs",
      "UI/UIDrawHelpers.cs",
      "UI/ScaledUI.cs",
      "UI/NinePatch.cs",
      "UI/BuffBarRenderer.cs",
      "UI/PauseOverlay.cs",
      "UI/RadialDial/PlayerWidgetRenderer.cs",
      "UI/RadialDial/RadialDialOverlay.cs",
      "UI/RadialDial/RadialDialService.cs",
      "UI/RadialDial/DialDimensions.cs",
      "UI/RadialDial/TurboGaugeRenderer.cs",
      "UI/RadialDial/ScrollDialRenderer.cs",
      "UI/RadialDial/ItemCardRenderer.cs",
      "UI/Victory/VictoryOverlay.cs",
      "Rendering/SkiaShapeFactory.cs",
      ".claude/context/hud-blueprint.md" ] }

/-- Subsystem record for key "vacuum-pickups" of the SUBSYSTEMS table in server.py. -/
def subVacuumPickups : Subsystem :=
  { key := "vacuum-pickups",
    name := "Vacuum Pickup System",
    description := "XP crystals and gold bags with Vampire Survivors-style vacuum physics (burst → float → attract → collect)",
    keywords := [ "vacuum",
      "pickup",
      "xp",
      "crystal",
      "gold",
      "bag",
      "coin",
      "pouch",
      "burst",
      "float",
      "attract",
      "collect",
      "drop",
      "loot",
      "enemy death",
      "despawn",
      "collector bonus",
      "multiplayer xp",
      "split",
      "tier",
      "yellow",
      "blue",
      "purple",
      "red",
      "small",
      "medium",
      "large" ],
    files := [ "ECS/Components/Combat/VacuumPickupComponent.cs",
      "ECS/Components/Combat/VacuumPhysicsComponent.cs",
      "ECS/Components/Combat/CollectibleComponent.cs",
      "ECS/Systems/VacuumPhysicsSystem.cs",
      "ECS/Systems/VacuumCollectionSystem.cs",
      "ECS/Systems/CombatSystem.cs",
      "ECS/Archetypes/EntityFactory.cs",
      "Network/Messages/VacuumPickupMessages.cs",
      "Content/Definitions/CollectibleDefinition.cs",
      "Content/Definitions/EmojiMappings.cs",
      "Content/Data/collectibles.json",
      "Services/Audio/SoundNames.cs",
      ".claude/context/vacuum-pickup-system.md" ] }

/-- The SUBSYSTEMS table of server.py, in dict load order. -/
def SUBSYSTEMS : List Subsystem :=
  [ subEcs,
    subServices,
    subGameStates,
    subNetworking,
    subPhysics,
    subRendering,
    subAi,
    subCombat,
    subTurbo,
    subDamage,
    subSpawning,
    subBoss,
    subDungeonGeneration,
    subInput,
    subAiming,
    subDevtools,
    subDungeonDebug,
    subDebugConsole,
    subTiledTemplates,
    subContent,
    subAudio,
    subCollectibles,
    subCoreFusion,
    subUi,
    subVacuumPickups ]

/-- Agent record for id "code-simplifier" of the AGENTS registry in server.py. -/
def agCodeSimplifier : Agent :=
  { id := "code-simplifier",
    name := "Code Simplifier",
    description := "Code simplification expert for C#/MonoGame/ECS. Use when code feels complex, hard to read, or fragile. Also handles game state file refactoring (large state files >500 lines, state machine flow, UI extraction). Simplifies without breaking functionality.",
    triggers := [ "simplify",
      "simplification",
      "complex",
      "complicated",
      "refactor",
      "cleanup",
      "clean up",
      "readable",
      "readability",
      "maintainable",
      "nested",
      "long method",
      "hard to read",
      "confusing",
      "messy",
      "playmenustate",
      "hubstate",
      "large file",
      "overlay" ],
    model := "opus" }

/-- Agent record for id "coordinate-wizard" of the AGENTS registry in server.py. -/
def agCoordinateWizard : Agent :=
  { id := "coordinate-wizard",
    name := "Coordinate Wizard",
    description := "Isometric coordinate and camera transform specialist. Use for world-to-screen conversion, isometric projections, mouse picking, entity positioning, tile rendering, camera following, UI anchoring, or ViewMode-specific behavior.",
    triggers := [ "coordinate",
      "screen",
      "camera",
      "isometric",
      "transform",
      "viewmode",
      "lightmap",
      "half-res",
      "projection",
      "mouse",
      "picking",
      "origin",
      "matrix" ],
    model := "opus" }

/-- Agent record for id "ecs-component-designer" of the AGENTS registry in server.py. -/
def agEcsComponentDesigner : Agent :=
  { id := "ecs-component-designer",
    name := "ECS Component Designer",
    description := "Arch ECS specialist for designing new components, systems, and entity archetypes following existing project patterns.",
    triggers := [ "component",
      "system",
      "entity",
      "archetype",
      "query",
      "ecs",
      "factory" ],
    model := "sonnet" }

/-- Agent record for id "sprite-2d-artist" of the AGENTS registry in server.py. -/
def agSpriteTwodArtist : Agent :=
  { id := "sprite-2d-artist",
    name := "2D Sprite Artist",
    description := "2D sprite and animation specialist for spritesheet creation, atlas packing, animation setup, sprite integration into MonoGame content, LDtk level decoration, and placeholder asset generation.",
    triggers := [ "sprite",
      "atlas",
      "animation",
      "spritesheet",
      "frame",
      "ldtk",
      "tileset",
      "texture",
      "pack",
      "placeholder" ],
    model := "sonnet" }

/-- Agent record for id "model-3d-artist" of the AGENTS registry in server.py. -/
def agModelThreedArtist : Agent :=
  { id := "model-3d-artist",
    name := "3D Model Artist",
    description := "3D model and Meshy pipeline specialist for image-to-3D generation, retexturing, rigging, animation, and Blender sprite rendering.",
    triggers := [ "meshy",
      "blender",
      "3d",
      "model",
      "rigging",
      "retexture",
      "headless",
      "glb",
      "fbx",
      "mixamo" ],
    model := "sonnet" }

/-- Agent record for id "debugger" of the AGENTS registry in server.py. -/
def agDebugger : Agent :=
  { id := "debugger",
    name := "Performance/Network Debugger",
    description := "Performance and network debugging specialist for system profiling, performance bottlenecks, multiplayer sync issues, latency investigation, clock synchronization, damage authority debugging, and lobby/connection debugging.",
    triggers := [ "performance",
      "slow",
      "bottleneck",
      "latency",
      "sync",
      "network",
      "profiler",
      "fps",
      "debug",
      "lag",
      "damage authority",
      "desync" ],
    model := "opus" }

/-- Agent record for id "dungeon-tester" of the AGENTS registry in server.py. -/
def agDungeonTester : Agent :=
  { id := "dungeon-tester",
    name := "Dungeon Tester",
    description := "Dungeon generation testing specialist for seed testing, room connectivity analysis, BSP debugging, procedural content validation, and spawner/treasure distribution checks.",
    triggers := [ "dungeon",
      "seed",
      "bsp",
      "room",
      "corridor",
      "procedural",
      "generation",
      "spawn" ],
    model := "sonnet" }

/-- Agent record for id "code-reviewer-game-dev" of the AGENTS registry in server.py. -/
def agCodeReviewerGameDev : Agent :=
  { id := "code-reviewer-game-dev",
    name := "Game Dev Code Reviewer",
    description := "Expert game engine code reviewer for C# ECS systems, physics logic, or networking code. Reviews for performance, correctness, and MonoGame best practices.",
    triggers := [ "review",
      "refactor",
      "allocations",
      "hot path",
      "performance",
      "patterns" ],
    model := "opus" }

/-- Agent record for id "network-protocol-designer" of the AGENTS registry in server.py. -/
def agNetworkProtocolDesigner : Agent :=
  { id := "network-protocol-designer",
    name := "Network Protocol Designer",
    description := "Network message and protocol specialist for adding new message types, sync patterns, determinism, damage authority, multiplayer state synchronization, and MessagePack serialization.",
    triggers := [ "message",
      "protocol",
      "sync",
      "determinism",
      "spawn seed",
      "snapshot",
      "interpolation",
      "reconciliation",
      "damage report",
      "health sync",
      "death batch",
      "authority",
      "messagepack",
      "serialization",
      "serialize",
      "deserialize" ],
    model := "opus" }

/-- Agent record for id "ability-designer" of the AGENTS registry in server.py. -/
def agAbilityDesigner : Agent :=
  { id := "ability-designer",
    name := "Ability Designer",
    description := "End-to-end ability implementation specialist covering ECS components, systems, VFX placeholders, cooldowns, and balance considerations.",
    triggers := [ "ability",
      "skill",
      "cooldown",
      "projectile",
      "aoe",
      "buff",
      "debuff",
      "cast",
      "power-up" ],
    model := "opus" }

/-- Agent record for id "shader-wizard" of the AGENTS registry in server.py. -/
def agShaderWizard : Agent :=
  { id := "shader-wizard",
    name := "Shader Wizard",
    description := "HLSL shader specialist for MonoGame effects, mgfxc compilation, multi-texture patterns, and graphics debugging.",
    triggers := [ "shader",
      "hlsl",
      "mgfxc",
      "bloom",
      "lighting",
      "multi-texture",
      "sampler" ],
    model := "sonnet" }

/-- Agent record for id "ldtk-validator" of the AGENTS registry in server.py. -/
def agLdtkValidator : Agent :=
  { id := "ldtk-validator",
    name := "LDtk Validator",
    description := "LDtk level design validator for hub/map validation, portal connections, layer consistency, and entity placement verification.",
    triggers := [ "ldtk",
      "hub",
      "portal",
      "tilemap",
      "layer",
      "map" ],
    model := "sonnet" }

/-- Agent record for id "audio-designer" of the AGENTS registry in server.py. -/
def agAudioDesigner : Agent :=
  { id := "audio-designer",
    name := "Audio Designer",
    description := "Audio implementation specialist for MonoGame. Use for sound effect creation, WAV generation, audio API integration (Freesound, ElevenLabs), ECS audio timing, performance optimization, and SoundNames organization.",
    triggers := [ "audio",
      "sound",
      "wav",
      "sfx",
      "music",
      "freesound",
      "elevenlabs",
      "soundeffect",
      "playsound",
      "volume",
      "bleep",
      "bloop",
      "click",
      "hover" ],
    model := "sonnet" }

/-- Agent record for id "ui-and-ux-agent" of the AGENTS registry in server.py. -/
def agUiAndUxAgent : Agent :=
  { id := "ui-and-ux-agent",
    name := "UI/UX Designer",
    description := "UI/UX design expert for MonoGame. Use when building menus, buttons, lists, dialogs, overlays, or debugging layout, scaling, and user interaction patterns.",
    triggers := [ "ui",
      "ux",
      "menu",
      "button",
      "dialog",
      "overlay",
      "layout",
      "scaling",
      "interaction",
      "widget",
      "panel",
      "screen",
      "interface" ],
    model := "sonnet" }

/-- Agent record for id "level-designer" of the AGENTS registry in server.py. -/
def agLevelDesigner : Agent :=
  { id := "level-designer",
    name := "Level Designer",
    description := "Level design specialist for dungeon config, spawning, tiles, and level balancing.",
    triggers := [ "level",
      "dungeon config",
      "spawning",
      "waves",
      "tiles",
      "difficulty",
      "balance",
      "enemy placement",
      "progression" ],
    model := "sonnet" }

/-- Agent record for id "game-design-brainstorm" of the AGENTS registry in server.py. -/
def agGameDesignBrainstorm : Agent :=
  { id := "game-design-brainstorm",
    name := "Game Design Brainstorm",
    description := "Senior game designer and player experience critic. Use for brainstorming systems/mechanics, feature scoping, evaluating game feel, reviewing player experience, and critiquing designs from a player perspective.",
    triggers := [ "design",
      "brainstorm",
      "feature",
      "mechanic",
      "system design",
      "scope",
      "tradeoff",
      "complexity",
      "game design",
      "fun",
      "feel",
      "game feel",
      "feedback",
      "juice",
      "juicy",
      "satisfying",
      "boring",
      "pacing",
      "loop",
      "engagement",
      "player experience",
      "critique",
      "evaluate" ],
    model := "opus" }

/-- Agent record for id "systems-designer" of the AGENTS registry in server.py. -/
def agSystemsDesigner : Agent :=
  { id := "systems-designer",
    name := "Systems Designer",
    description := "MonoGame systems architecture expert. Use when designing core game systems, establishing patterns, or evaluating architectural decisions. Expert in multiplayer ARPG, FPS, and competitive game frameworks.",
    triggers := [ "systems",
      "architecture",
      "pattern",
      "pooling",
      "spatial",
      "physics",
      "ai navigation",
      "a*",
      "pathfinding",
      "collision",
      "swept",
      "netcode",
      "tick rate",
      "fixed timestep",
      "hot path",
      "determinism",
      "seeding",
      "rng",
      "procedural",
      "wave",
      "spawning",
      "director",
      "loot",
      "drop table",
      "camera system",
      "input buffer",
      "animation state",
      "buff system",
      "debuff",
      "targeting",
      "lock-on",
      "save system",
      "persistence",
      "accessibility",
      "analytics",
      "replay",
      "anti-cheat",
      "loading",
      "streaming",
      "data-driven",
      "configuration",
      "definition",
      "json data",
      "hot reload",
      "state machine",
      "game state",
      "screen stack",
      "lifecycle",
      "event bus",
      "pub/sub",
      "messaging",
      "debug console",
      "cheat",
      "cvar" ],
    model := "opus" }

/-- The AGENTS registry of server.py, in dict load order. -/
def AGENTS : List Agent :=
  [ agCodeSimplifier,
    agCoordinateWizard,
    agEcsComponentDesigner,
    agSpriteTwodArtist,
    agModelThreedArtist,
    agDebugger,
    agDungeonTester,
    agCodeReviewerGameDev,
    agNetworkProtocolDesigner,
    agAbilityDesigner,
    agShaderWizard,
    agLdtkValidator,
    agAudioDesigner,
    agUiAndUxAgent,
    agLevelDesigner,
    agGameDesignBrainstorm,
    agSystemsDesigner ]

/-- Occurrence count of a trigger across all agents' trigger lists: the
`trigger_agent_count` dictionary precomputed by `suggest_agent`. -/
def triggerAgentCount (t : String) : Nat :=
  (AGENTS.map (fun a => a.triggers.count t)).sum

/-- Positive denominator of the uniqueness weight: models
`trigger_agent_count.get(trigger, 1)` (the default 1 is taken exactly when
the trigger occurs in no list, i.e. the count is 0). -/
def triggerDen (t : String) : PNat :=
  ⟨if triggerAgentCount t = 0 then 1 else triggerAgentCount t, by split <;> omega⟩

/-- Score contribution of a matched trigger:
`len(trigger_words) * (1.0 + 1.0 / trigger_agent_count.get(trigger, 1))`. -/
def triggerValue (t : String) : Frac :=
  Frac.mulNat (splitWs t.toList).length (Frac.add (Frac.ofNat 1) ⟨1, triggerDen t⟩)

/-- Match test of one trigger against the lower-cased task text: a trigger
that splits into a single word matches by exact membership in the token
set, any other trigger matches as a literal substring. -/
def triggerMatches (taskLower : List Char) (t : String) : Bool :=
  if (splitWs t.toList).length == 1 then (tokenize taskLower).contains t.toList
  else occursIn t.toList taskLower

/-- Description bonus test: some token of length greater than 3 occurs in
the agent's lower-cased description. -/
def descBonus (taskLower : List Char) (a : Agent) : Bool :=
  (tokenize taskLower).any (fun w => decide (3 < w.length) && occursIn w (lowerL a.description))

/-- Numeric score `suggest_agent` computes for one agent. -/
def agentScore (taskLower : List Char) (a : Agent) : Frac :=
  let s := a.triggers.foldl
    (fun s t => if triggerMatches taskLower t then s.add (triggerValue t) else s)
    (Frac.ofNat 0)
  if descBonus taskLower a then s.add ⟨1, 2⟩ else s

/-- Matched triggers of an agent, in trigger-list order (the code appends
to `matched_triggers` inside the same loop that accumulates the score). -/
def matchedTriggers (taskLower : List Char) (a : Agent) : List String :=
  a.triggers.filter (triggerMatches taskLower)

/-- One entry of the `matches` list built by `suggest_agent`. -/
structure AgentMatch where
  agent : String
  name : String
  description : String
  model : String
  score : Frac
  matched_triggers : List String

/-- The `matches` list of `suggest_agent` before sorting: agents with a
positive score, in registry load order. -/
def agentMatchesList (taskLower : List Char) : List AgentMatch :=
  AGENTS.filterMap (fun a =>
    if Frac.lt (Frac.ofNat 0) (agentScore taskLower a) then
      some { agent := a.id, name := a.name, description := a.description, model := a.model,
             score := agentScore taskLower a, matched_triggers := matchedTriggers taskLower a }
    else none)

/-- Stable descending insertion: `x` is placed before the first element
whose key is strictly smaller, hence after all elements with an equal key. -/
def ordInsertDesc {α β : Type} (lt : β → β → Bool) (key : α → β) (x : α) :
    List α → List α
  | [] => [x]
  | y :: ys => if lt (key y) (key x) then x :: y :: ys else y :: ordInsertDesc lt key x ys

/-- Stable descending sort: models `list.sort(key=..., reverse=True)`. -/
def sortOnDesc {α β : Type} (lt : β → β → Bool) (key : α → β) (l : List α) : List α :=
  l.foldl (fun acc x => ordInsertDesc lt key x acc) []

/-- The sorted `matches` list of `suggest_agent`. -/
def sortedAgentMatches (taskLower : List Char) : List AgentMatch :=
  sortOnDesc Frac.lt AgentMatch.score (agentMatchesList taskLower)

/-- Result envelope of `suggest_agent`.  The `disambiguation` note is
modelled by the list of tied agent ids it names (the code renders this
list into a fixed sentence). -/
structure SuggestResult where
  task : String
  recommendation : Option String
  confidence : String
  suggested_agents : List AgentMatch
  should_invoke : Bool
  disambiguation : Option (List String)

/-- Top score used for the confidence tier:
`matches[0]["score"] if matches else 0`. -/
def topAgentScore (taskLower : List Char) : Frac :=
  match sortedAgentMatches taskLower with
  | [] => Frac.ofNat 0
  | m :: _ => m.score

/-- Confidence tier computed by `suggest_agent` from the top score:
`"high" if top_score >= 4 else "medium" if top_score >= 2 else "low" if
top_score >= 1 else "none"`. -/
def codeConfidence (top : Frac) : String :=
  if Frac.le (Frac.ofNat 4) top then "high"
  else if Frac.le (Frac.ofNat 2) top then "medium"
  else if Frac.le (Frac.ofNat 1) top then "low"
  else "none"

/-- Disambiguation note of `suggest_agent`: when the two top scores are
equal, the ids of all matches tied at the top score (the code joins these
ids into a fixed sentence). -/
def codeDisambiguation : List AgentMatch → Option (List String)
  | m0 :: m1 :: rest =>
    if Frac.eqb m0.score m1.score then
      some (((m0 :: m1 :: rest).filter (fun m => Frac.eqb m.score m0.score)).map
        (fun m => m.agent))
    else none
  | _ => none

/-- The `suggest_agent` MCP tool. -/
def suggest_agent (task : String) : SuggestResult :=
  let taskLower := lowerL task
  { task := task,
    recommendation := (sortedAgentMatches taskLower).head?.map (fun m => m.agent),
    confidence := codeConfidence (topAgentScore taskLower),
    suggested_agents := (sortedAgentMatches taskLower).take 3,
    should_invoke := codeConfidence (topAgentScore taskLower) == "high"
      || codeConfidence (topAgentScore taskLower) == "medium",
    disambiguation := codeDisambiguation (sortedAgentMatches taskLower) }

/-- Integer score `find_relevant_context` computes for one subsystem. -/
def subsystemScore (taskLower : List Char) (s : Subsystem) : Nat :=
  (s.keywords.foldl (fun n k => if occursIn k.toList taskLower then n + 1 else n) 0)
  + (if occursIn (lowerL s.name) taskLower then 2 else 0)

/-- Matched keywords of a subsystem, in keyword-list order. -/
def matchedKeywords (taskLower : List Char) (s : Subsystem) : List String :=
  s.keywords.filter (fun k => occursIn k.toList taskLower)

/-- One entry of the `matches` list built by `find_relevant_context`. -/
structure SubMatch where
  subsystem : String
  name : String
  score : Nat
  matched_keywords : List String
  files : List String
deriving DecidableEq, Repr

/-- The `matches` list of `find_relevant_context` before sorting:
subsystems with a positive score, in index load order. -/
def subMatches (taskLower : List Char) : List SubMatch :=
  SUBSYSTEMS.filterMap (fun s =>
    if 0 < subsystemScore taskLower s then
      some { subsystem := s.key, name := s.name, score := subsystemScore taskLower s,
             matched_keywords := matchedKeywords taskLower s, files := s.files }
    else none)

/-- Boolean strict order on natural numbers (sort key comparison). -/
def natLt (a b : Nat) : Bool := decide (a < b)

/-- The sorted `matches` list of `find_relevant_context`. -/
def sortedSubMatches (taskLower : List Char) : List SubMatch :=
  sortOnDesc natLt SubMatch.score (subMatches taskLower)

/-- The fixed base path used to qualify file patterns. -/
def basePath : String := "GameProject/src/GameProject.Engine"

/-- Path qualification `f"{base_path}/{f}"`. -/
def fullPath (f : String) : String := basePath ++ "/" ++ f

/-- Candidate file list: walk the top 3 scored subsystems in rank order,
appending each qualified file that is not already present. -/
def buildFiles (ms : List SubMatch) : List String :=
  (ms.take 3).foldl (fun acc m =>
    m.files.foldl (fun acc2 f =>
      if acc2.contains (fullPath f) then acc2 else acc2 ++ [fullPath f]) acc) []

/-- Result envelope of `find_relevant_context`. -/
structure ContextResult where
  task : String
  relevant_subsystems : List SubMatch
  suggested_files : List String
  architecture_resource : String

/-- The `find_relevant_context` MCP tool. -/
def find_relevant_context (task : String) : ContextResult :=
  let taskLower := lowerL task
  let ms := sortedSubMatches taskLower
  { task := task,
    relevant_subsystems := ms.take 5,
    suggested_files := (buildFiles ms).take 10,
    architecture_resource := "context7://architecture" }

/-- Result of `get_files_for_subsystem`: either the not-found error payload
(with the `available` key list) or the subsystem payload. -/
inductive FilesResult where
  | err (message : String) (available : List String)
  | ok (subsystem name description : String) (files : List String)
deriving DecidableEq, Repr

/-- Discriminator for the error payload. -/
def FilesResult.isErr : FilesResult → Bool
  | .err _ _ => true
  | .ok _ _ _ _ => false

/-- The `get_files_for_subsystem` MCP tool. -/
def get_files_for_subsystem (key : String) : FilesResult :=
  match SUBSYSTEMS.find? (fun s => s.key == key) with
  | none => .err ("Unknown subsystem: " ++ key) (SUBSYSTEMS.map (fun s => s.key))
  | some s => .ok key s.name s.description (s.files.map fullPath)

/-- The keys of the loaded Subsystem Index, in load order (the key set of
the dictionary returned by `list_subsystems`). -/
def subsystemKeys : List String := SUBSYSTEMS.map (fun s => s.key)

/-- The `list_subsystems` MCP tool (key, name, description, keywords). -/
def list_subsystems : List (String × String × String × List String) :=
  SUBSYSTEMS.map (fun s => (s.key, s.name, s.description, s.keywords))

/-- Split a character list at newline characters, keeping empty segments:
models `content.split("\n")`. -/
def splitNl : List Char → List (List Char)
  | [] => [[]]
  | c :: cs =>
    if c == '\n' then [] :: splitNl cs
    else
      match splitNl cs with
      | [] => [[c]]
      | s :: ss => (c :: s) :: ss

/-- One line match inside a document. -/
structure DocMatch where
  line_number : Nat
  context : String
deriving DecidableEq, Repr

/-- Per-document result of `search_context_documents` (`match_list` models
the dict entry the code stores under the key "matches"). -/
structure DocResult where
  document : String
  match_list : List DocMatch
  total_matches : Nat
deriving DecidableEq, Repr

/-- All line matches of a query inside a document's lines: a match records
the 1-based line number and the context block of 2 lines before and after,
clipped at the document boundaries and joined with newlines. -/
def docLineMatches (queryLower : List Char) (lines : List (List Char)) : List DocMatch :=
  lines.enum.filterMap (fun p =>
    if occursIn queryLower (lowerList p.2) then
      some { line_number := p.1 + 1,
             context := String.intercalate "\n"
               (((lines.drop (p.1 - 2)).take
                   (min lines.length (p.1 + 3) - (p.1 - 2))).map (fun l => String.mk l)) }
    else none)

/-- Search one readable document; `none` when no line matches (the code
only appends a result entry when `matches` is non-empty). -/
def searchDoc (queryLower : List Char) (name : String) (content : String) : Option DocResult :=
  let ms := docLineMatches queryLower (splitNl content.toList)
  if ms.isEmpty then none
  else some { document := name, match_list := ms.take 10, total_matches := ms.length }

/-- Subsystem cross-reference entry of `search_context_documents`; the two
shapes the code emits are modelled with optional fields. -/
structure SubXref where
  subsystem : String
  name : String
  description : Option String
  matched_keyword : Option String
deriving DecidableEq, Repr

/-- Cross-reference test for one subsystem: name/description substring
first, otherwise the first matching keyword (the loop breaks at the first
hit). -/
def subsysXref (queryLower : List Char) (s : Subsystem) : Option SubXref :=
  if occursIn queryLower (lowerL s.name) || occursIn queryLower (lowerL s.description) then
    some { subsystem := s.key, name := s.name, description := some s.description,
           matched_keyword := none }
  else
    match s.keywords.find? (fun k => occursIn queryLower (lowerL k)) with
    | some k => some { subsystem := s.key, name := s.name, description := none,
                       matched_keyword := some k }
    | none => none

/-- Result envelope of `search_context_documents`. -/
structure SearchResult where
  query : String
  document_matches : List DocResult
  subsystem_matches : List SubXref
deriving DecidableEq, Repr

/-- The `search_context_documents` MCP tool over a modelled documentation
directory: each document is a name paired with `some content` (readable)
or `none` (reading raises and the `except` clause skips the document). -/
def search_context_documents (docs : List (String × Option String)) (query : String) :
    SearchResult :=
  { query := query,
    document_matches := docs.filterMap (fun d =>
      match d.2 with
      | none => none
      | some content => searchDoc (lowerL query) d.1 content),
    subsystem_matches := SUBSYSTEMS.filterMap (subsysXref (lowerL query)) }

/-! ### Rational-value bridge for the exact fraction model -/

theorem Frac.denQ_pos (a : Frac) : (0:ℚ) < ((a.den : Nat) : ℚ) := by
  exact_mod_cast a.den.pos

theorem Frac.denQ_ne (a : Frac) : (((a.den : Nat) : ℚ)) ≠ 0 := ne_of_gt a.denQ_pos

theorem Frac.lt_iff (a b : Frac) : (Frac.lt a b = true) ↔ a.toRat < b.toRat := by
  rw [Frac.lt, Frac.toRat, Frac.toRat, decide_eq_true_eq,
    div_lt_div_iff a.denQ_pos b.denQ_pos, Frac.di, Frac.di]
  exact_mod_cast Iff.rfl

theorem Frac.le_iff (a b : Frac) : (Frac.le a b = true) ↔ a.toRat ≤ b.toRat := by
  rw [Frac.le, Frac.toRat, Frac.toRat, decide_eq_true_eq,
    div_le_div_iff a.denQ_pos b.denQ_pos, Frac.di, Frac.di]
  exact_mod_cast Iff.rfl

theorem Frac.eqb_iff (a b : Frac) : (Frac.eqb a b = true) ↔ a.toRat = b.toRat := by
  rw [Frac.eqb, Frac.toRat, Frac.toRat, decide_eq_true_eq,
    div_eq_div_iff a.denQ_ne b.denQ_ne, Frac.di, Frac.di]
  exact_mod_cast Iff.rfl

theorem Frac.lt_false_iff (a b : Frac) : (Frac.lt a b = false) ↔ b.toRat ≤ a.toRat := by
  rw [← not_lt, ← Frac.lt_iff, Bool.not_eq_true]

theorem Frac.le_false_iff (a b : Frac) : (Frac.le a b = false) ↔ b.toRat < a.toRat := by
  rw [← not_le, ← Frac.le_iff, Bool.not_eq_true]

theorem Frac.eqb_false_iff (a b : Frac) : (Frac.eqb a b = false) ↔ a.toRat ≠ b.toRat := by
  rw [ne_eq, ← Frac.eqb_iff, Bool.not_eq_true]

theorem Frac.toRat_ofNat (n : Nat) : (Frac.ofNat n).toRat = n := by
  unfold Frac.ofNat Frac.toRat
  norm_num

theorem Frac.toRat_add (a b : Frac) : (a.add b).toRat = a.toRat + b.toRat := by
  unfold Frac.add Frac.toRat Frac.di
  have ha : (((a.den : Nat)) : ℚ) ≠ 0 := a.denQ_ne
  have hb : (((b.den : Nat)) : ℚ) ≠ 0 := b.denQ_ne
  push_cast [PNat.mul_coe]
  field_simp

theorem Frac.toRat_mulNat (k : Nat) (a : Frac) : (Frac.mulNat k a).toRat = k * a.toRat := by
  unfold Frac.mulNat Frac.toRat
  push_cast
  ring

/-! ### The stable descending insertion sort -/

theorem ordInsertDesc_perm {α β : Type} (lt : β → β → Bool) (key : α → β) (x : α)
    (l : List α) : (ordInsertDesc lt key x l).Perm (x :: l) := by
  induction l with
  | nil => exact List.Perm.refl _
  | cons y ys ih =>
    rw [ordInsertDesc]
    split
    · exact List.Perm.refl _
    · exact (ih.cons y).trans (List.Perm.swap x y ys)

theorem ordInsertDesc_mem {α β : Type} (lt : β → β → Bool) (key : α → β) (x : α)
    (l : List α) (z : α) : z ∈ ordInsertDesc lt key x l ↔ z = x ∨ z ∈ l := by
  rw [(ordInsertDesc_perm lt key x l).mem_iff, List.mem_cons]

theorem foldl_ordInsert_perm {α β : Type} (lt : β → β → Bool) (key : α → β)
    (l acc : List α) :
    (l.foldl (fun acc x => ordInsertDesc lt key x acc) acc).Perm (acc ++ l) := by
  induction l generalizing acc with
  | nil => simp
  | cons x xs ih =>
    rw [List.foldl_cons]
    refine (ih (ordInsertDesc lt key x acc)).trans ?_
    refine (((ordInsertDesc_perm lt key x acc).append_right xs).trans ?_)
    exact List.perm_middle.symm

theorem sortOnDesc_perm {α β : Type} (lt : β → β → Bool) (key : α → β) (l : List α) :
    (sortOnDesc lt key l).Perm l := by
  simpa [sortOnDesc] using foldl_ordInsert_perm lt key l []

theorem ordInsertDesc_pairwise {α β : Type} (lt : β → β → Bool) (key : α → β)
    (hasym : ∀ a b, lt a b = true → lt b a = false)
    (htrans : ∀ a b c, lt a b = false → lt b c = false → lt a c = false)
    (x : α) (l : List α)
    (hl : l.Pairwise (fun a b => lt (key a) (key b) = false)) :
    (ordInsertDesc lt key x l).Pairwise (fun a b => lt (key a) (key b) = false) := by
  induction l with
  | nil => simp [ordInsertDesc]
  | cons y ys ih =>
    rw [List.pairwise_cons] at hl
    rw [ordInsertDesc]
    split
    · rename_i h
      rw [List.pairwise_cons]
      constructor
      · intro z hz
        rcases List.mem_cons.mp hz with rfl | hz
        · exact hasym _ _ h
        · exact htrans _ _ _ (hasym _ _ h) (hl.1 z hz)
      · exact List.pairwise_cons.mpr hl
    · rename_i h
      rw [List.pairwise_cons]
      constructor
      · intro z hz
        rcases (ordInsertDesc_mem lt key x ys z).mp hz with rfl | hz
        · exact Bool.not_eq_true _ ▸ h
        · exact hl.1 z hz
      · exact ih hl.2

theorem sortOnDesc_pairwise {α β : Type} (lt : β → β → Bool) (key : α → β)
    (hasym : ∀ a b, lt a b = true → lt b a = false)
    (htrans : ∀ a b c, lt a b = false → lt b c = false → lt a c = false)
    (l : List α) :
    (sortOnDesc lt key l).Pairwise (fun a b => lt (key a) (key b) = false) := by
  have main : ∀ (l acc : List α),
      acc.Pairwise (fun a b => lt (key a) (key b) = false) →
      (l.foldl (fun acc x => ordInsertDesc lt key x acc) acc).Pairwise
        (fun a b => lt (key a) (key b) = false) := by
    intro l
    induction l with
    | nil => intro acc h; exact h
    | cons x xs ih =>
      intro acc h
      rw [List.foldl_cons]
      exact ih _ (ordInsertDesc_pairwise lt key hasym htrans x acc h)
  exact main l [] (List.Pairwise.nil)

theorem boolEq_of_iff {a b : Bool} (h : a = true ↔ b = true) : a = b := by
  cases a <;> cases b <;> simp_all

theorem ordInsertDesc_filter_ne {α β : Type} (lt eqb : β → β → Bool) (key : α → β)
    (b : β) (x : α) (l : List α) (hx : eqb (key x) b = false) :
    (ordInsertDesc lt key x l).filter (fun z => eqb (key z) b)
      = l.filter (fun z => eqb (key z) b) := by
  induction l with
  | nil => simp [ordInsertDesc, hx]
  | cons y ys ih =>
    rw [ordInsertDesc]
    split
    · rw [List.filter_cons, List.filter_cons]
      simp [hx]
    · rw [List.filter_cons, List.filter_cons]
      cases h : eqb (key y) b <;> simp [h, ih]

theorem ordInsertDesc_filter_eq {α β : Type} (lt eqb : β → β → Bool) (key : α → β)
    (hcong : ∀ a b, eqb a b = true → ∀ c, lt c a = lt c b ∧ lt a c = lt b c)
    (hirr : ∀ a, lt a a = false)
    (b : β) (x : α) (l : List α) (hx : eqb (key x) b = true)
    (hl : l.Pairwise (fun a b => lt (key a) (key b) = false)) :
    (ordInsertDesc lt key x l).filter (fun z => eqb (key z) b)
      = l.filter (fun z => eqb (key z) b) ++ [x] := by
  induction l with
  | nil => simp [ordInsertDesc, hx]
  | cons y ys ih =>
    rw [List.pairwise_cons] at hl
    rw [ordInsertDesc]
    split
    · rename_i hlt
      have hnone : ∀ z ∈ y :: ys, eqb (key z) b = false := by
        intro z hz
        cases hzb : eqb (key z) b
        · rfl
        · exfalso
          rcases List.mem_cons.mp hz with rfl | hzys
          · have h1 := (hcong _ _ hzb (key x)).2
            have h2 := (hcong _ _ hx b).1
            rw [h1, h2, hirr b] at hlt
            exact Bool.false_ne_true hlt
          · have hyz := hl.1 z hzys
            have h1 := (hcong _ _ hzb (key y)).1
            have h2 := (hcong _ _ hx (key y)).1
            rw [h2, ← h1, hyz] at hlt
            exact Bool.false_ne_true hlt
      have hfil : (y :: ys).filter (fun z => eqb (key z) b) = [] := by
        rw [List.filter_eq_nil]
        intro z hz
        simp [hnone z hz]
      rw [List.filter_cons, hfil]
      simp [hx]
    · rename_i hlt
      rw [List.filter_cons, List.filter_cons]
      cases h : eqb (key y) b
      · simpa [h] using ih hl.2
      · simp [h, ih hl.2]

theorem foldl_ordInsert_filter {α β : Type} (lt eqb : β → β → Bool) (key : α → β)
    (hasym : ∀ a b, lt a b = true → lt b a = false)
    (htrans : ∀ a b c, lt a b = false → lt b c = false → lt a c = false)
    (hcong : ∀ a b, eqb a b = true → ∀ c, lt c a = lt c b ∧ lt a c = lt b c)
    (hirr : ∀ a, lt a a = false)
    (b : β) (l acc : List α)
    (hacc : acc.Pairwise (fun a b => lt (key a) (key b) = false)) :
    (l.foldl (fun acc x => ordInsertDesc lt key x acc) acc).filter (fun z => eqb (key z) b)
      = acc.filter (fun z => eqb (key z) b) ++ l.filter (fun z => eqb (key z) b) := by
  induction l generalizing acc with
  | nil => simp
  | cons x xs ih =>
    rw [List.foldl_cons, ih _ (ordInsertDesc_pairwise lt key hasym htrans x acc hacc),
      List.filter_cons]
    cases hx : eqb (key x) b
    · rw [ordInsertDesc_filter_ne lt eqb key b x acc hx]
      simp
    · rw [ordInsertDesc_filter_eq lt eqb key hcong hirr b x acc hx hacc]
      simp

theorem sortOnDesc_filter {α β : Type} (lt eqb : β → β → Bool) (key : α → β)
    (hasym : ∀ a b, lt a b = true → lt b a = false)
    (htrans : ∀ a b c, lt a b = false → lt b c = false → lt a c = false)
    (hcong : ∀ a b, eqb a b = true → ∀ c, lt c a = lt c b ∧ lt a c = lt b c)
    (hirr : ∀ a, lt a a = false)
    (b : β) (l : List α) :
    (sortOnDesc lt key l).filter (fun z => eqb (key z) b)
      = l.filter (fun z => eqb (key z) b) := by
  simpa [sortOnDesc] using
    foldl_ordInsert_filter lt eqb key hasym htrans hcong hirr b l [] List.Pairwise.nil

/-! ### The comparison hypotheses, for the two key types used -/

theorem fracLt_asym : ∀ a b : Frac, Frac.lt a b = true → Frac.lt b a = false := by
  intro a b h
  rw [Frac.lt_iff] at h
  rw [Frac.lt_false_iff]
  exact le_of_lt h

theorem fracLt_transNot : ∀ a b c : Frac,
    Frac.lt a b = false → Frac.lt b c = false → Frac.lt a c = false := by
  intro a b c h1 h2
  rw [Frac.lt_false_iff] at h1 h2 ⊢
  exact le_trans h2 h1

theorem fracLt_irrefl : ∀ a : Frac, Frac.lt a a = false := by
  intro a
  rw [Frac.lt_false_iff]

theorem fracEqb_congr : ∀ a b : Frac, Frac.eqb a b = true →
    ∀ c, (Frac.lt c a = Frac.lt c b ∧ Frac.lt a c = Frac.lt b c) := by
  intro a b h c
  rw [Frac.eqb_iff] at h
  constructor
  · exact boolEq_of_iff (by rw [Frac.lt_iff, Frac.lt_iff, h])
  · exact boolEq_of_iff (by rw [Frac.lt_iff, Frac.lt_iff, h])

theorem natLt_asym : ∀ a b : Nat, natLt a b = true → natLt b a = false := by
  intro a b h
  simp only [natLt, decide_eq_true_eq] at h
  simp only [natLt, decide_eq_false_iff_not, not_lt]
  omega

theorem natLt_transNot : ∀ a b c : Nat,
    natLt a b = false → natLt b c = false → natLt a c = false := by
  intro a b c h1 h2
  simp only [natLt, decide_eq_false_iff_not, not_lt] at h1 h2 ⊢
  omega

theorem natLt_irrefl : ∀ a : Nat, natLt a a = false := by
  intro a
  simp [natLt]

theorem natEqb_congr : ∀ a b : Nat, decide (a = b) = true →
    ∀ c, (natLt c a = natLt c b ∧ natLt a c = natLt b c) := by
  intro a b h c
  simp only [decide_eq_true_eq] at h
  subst h
  exact ⟨rfl, rfl⟩

/-! ### Score bookkeeping lemmas -/

theorem foldl_count_eq (p : String → Bool) (l : List String) (n : Nat) :
    l.foldl (fun n k => if p k then n + 1 else n) n = n + l.countP p := by
  induction l generalizing n with
  | nil => simp
  | cons k ks ih =>
    rw [List.foldl_cons, List.countP_cons]
    cases h : p k <;> simp [h, ih] <;> omega

theorem foldl_fracSum (p : String → Bool) (v : String → Frac) (l : List String) (s : Frac) :
    (l.foldl (fun s t => if p t then s.add (v t) else s) s).toRat
      = s.toRat + ((l.filter p).map (fun t => (v t).toRat)).sum := by
  induction l generalizing s with
  | nil => simp
  | cons t ts ih =>
    rw [List.foldl_cons, List.filter_cons]
    cases h : p t
    · rw [if_neg (by simp), if_neg (by simp)]
      exact ih s
    · rw [if_pos rfl, if_pos rfl, ih (s.add (v t)), Frac.toRat_add, List.map_cons,
        List.sum_cons]
      ring

/-- Claim-side agent count: the number of distinct agents listing the
exact trigger phrase. -/
def distinctAgentCount (t : String) : Nat :=
  (AGENTS.filter (fun a => a.triggers.contains t)).length

theorem agents_triggers_nodup : ∀ a ∈ AGENTS, a.triggers.Nodup := by decide

theorem agents_ids_nodup : (AGENTS.map (fun a => a.id)).Nodup := by decide

theorem subsystems_keys_nodup : (SUBSYSTEMS.map (fun s => s.key)).Nodup := by decide

theorem subsystems_keywords_nodup : ∀ s ∈ SUBSYSTEMS, s.keywords.Nodup := by decide

theorem sum_count_eq_filter_length (t : String) :
    ∀ L : List Agent, (∀ a ∈ L, a.triggers.Nodup) →
      (L.map (fun a => a.triggers.count t)).sum
        = (L.filter (fun a => a.triggers.contains t)).length := by
  intro L
  induction L with
  | nil => simp
  | cons a as ih =>
    intro h
    have hrest := ih (fun b hb => h b (List.mem_cons_of_mem a hb))
    rw [List.map_cons, List.sum_cons, List.filter_cons]
    cases hc : a.triggers.contains t
    · have hnm : t ∉ a.triggers := by
        intro hm
        have helem : a.triggers.contains t = true := List.elem_iff.mpr hm
        rw [hc] at helem
        cases helem
      rw [List.count_eq_zero_of_not_mem hnm, hrest]
      simp
    · have hm : t ∈ a.triggers := List.elem_iff.mp hc
      rw [List.count_eq_one_of_mem (h a (List.mem_cons_self a as)) hm, hrest]
      simp [Nat.add_comm]

theorem triggerAgentCount_eq_distinct (t : String) :
    triggerAgentCount t = distinctAgentCount t :=
  sum_count_eq_filter_length t AGENTS agents_triggers_nodup

theorem triggerAgentCount_pos {a : Agent} (ha : a ∈ AGENTS) {t : String}
    (ht : t ∈ a.triggers) : 0 < triggerAgentCount t := by
  unfold triggerAgentCount
  have h1 : 0 < a.triggers.count t := List.count_pos_iff_mem.mpr ht
  have h2 : a.triggers.count t ∈ AGENTS.map (fun a => a.triggers.count t) :=
    List.mem_map_of_mem _ ha
  have h3 := List.single_le_sum (fun x _ => Nat.zero_le x) _ h2
  omega

theorem triggerValue_toRat {a : Agent} (ha : a ∈ AGENTS) {t : String} (ht : t ∈ a.triggers) :
    (triggerValue t).toRat
      = ((splitWs t.toList).length : ℚ) * (1 + 1 / (distinctAgentCount t : ℚ)) := by
  have hpos := triggerAgentCount_pos ha ht
  unfold triggerValue
  rw [Frac.toRat_mulNat, Frac.toRat_add, Frac.toRat_ofNat]
  have hden : (Frac.toRat ⟨1, triggerDen t⟩) = 1 / (distinctAgentCount t : ℚ) := by
    unfold Frac.toRat triggerDen
    rw [← triggerAgentCount_eq_distinct]
    have : (if triggerAgentCount t = 0 then 1 else triggerAgentCount t)
        = triggerAgentCount t := if_neg (by omega)
    simp only [PNat.mk_ofNat]
    norm_num [this]
  rw [hden]
  norm_num

theorem triggerValue_toRat_nonneg (t : String) : 0 ≤ (triggerValue t).toRat := by
  unfold triggerValue Frac.toRat Frac.mulNat Frac.add Frac.ofNat Frac.di
  apply div_nonneg
  · push_cast
    have h1 : (0:ℚ) ≤ ((splitWs t.toList).length : ℚ) := by positivity
    have h2 : (0:ℚ) ≤ (((triggerDen t) : ℕ) : ℚ) := by positivity
    nlinarith
  · positivity

theorem agentScore_toRat (taskLower : List Char) (a : Agent) :
    (agentScore taskLower a).toRat
      = ((a.triggers.filter (triggerMatches taskLower)).map
          (fun t => (triggerValue t).toRat)).sum
        + (if descBonus taskLower a then (1:ℚ)/2 else 0) := by
  unfold agentScore
  cases h : descBonus taskLower a
  · simp only [h, Bool.false_eq_true, if_false]
    rw [foldl_fracSum]
    rw [Frac.toRat_ofNat]
    norm_num
  · simp only [h, if_true]
    rw [Frac.toRat_add, foldl_fracSum, Frac.toRat_ofNat]
    have : (Frac.toRat ⟨1, 2⟩) = 1/2 := by
      unfold Frac.toRat
      norm_num
    rw [this]
    ring

theorem agentScore_nonneg (taskLower : List Char) (a : Agent) :
    0 ≤ (agentScore taskLower a).toRat := by
  rw [agentScore_toRat]
  have h1 : 0 ≤ ((a.triggers.filter (triggerMatches taskLower)).map
      (fun t => (triggerValue t).toRat)).sum := by
    apply List.sum_nonneg
    intro x hx
    rcases List.mem_map.mp hx with ⟨t, _, rfl⟩
    exact triggerValue_toRat_nonneg t
  cases h : descBonus taskLower a <;> simp [h] <;> linarith

/-! ### C1: the suggest_agent score formula -/

/-- Claim-side score formula: the sum, over the agent's matching triggers,
of wordCount(trigger) * (1 + 1/agentCount(trigger)) with agentCount the
number of distinct agents listing the trigger, plus a flat 0.5 when some
input token of length > 3 occurs in the agent's description. -/
def specAgentScore (taskLower : List Char) (a : Agent) : ℚ :=
  ((a.triggers.filter (triggerMatches taskLower)).map
      (fun t => ((splitWs t.toList).length : ℚ) * (1 + 1 / (distinctAgentCount t : ℚ)))).sum
  + (if descBonus taskLower a then (1:ℚ)/2 else 0)

/-- C1: for every task description and every registered agent, the numeric
score computed by suggest_agent equals the sum over matching triggers of
wordCount(trigger) * (1 + 1/agentCount(trigger)), where agentCount is the
number of distinct agents listing that exact trigger, plus a flat 0.5 when
any input token longer than 3 characters occurs in the agent's lower-cased
description. -/
theorem C1_agent_score_formula (task : String) (a : Agent) (ha : a ∈ AGENTS) :
    (agentScore (lowerL task) a).toRat = specAgentScore (lowerL task) a := by
  rw [agentScore_toRat, specAgentScore]
  congr 1
  exact congrArg List.sum (List.map_congr_left
    (fun t ht => triggerValue_toRat ha (List.mem_of_mem_filter ht)))

set_option maxRecDepth 4000 in
/-- Witness for C1 at the agent `code-simplifier` and a concrete task. -/
theorem C1_agent_score_formula_witness :
    agCodeSimplifier ∈ AGENTS ∧
      (agentScore (lowerL "please simplify this overlay") agCodeSimplifier).toRat
        = specAgentScore (lowerL "please simplify this overlay") agCodeSimplifier :=
  ⟨by decide, C1_agent_score_formula "please simplify this overlay" agCodeSimplifier (by decide)⟩

/-! ### C2: confidence tiers -/

/-- Spec-side maximum of a list of rationals, with floor 0. -/
def maxQ (l : List ℚ) : ℚ := l.foldl max 0

theorem foldl_max_init_le (l : List ℚ) (q : ℚ) : q ≤ l.foldl max q := by
  induction l generalizing q with
  | nil => simp
  | cons x xs ih => exact le_trans (le_max_left q x) (ih (max q x))

theorem foldl_max_mem_le (l : List ℚ) (q x : ℚ) (hx : x ∈ l) : x ≤ l.foldl max q := by
  induction l generalizing q with
  | nil => cases hx
  | cons y ys ih =>
    rcases List.mem_cons.mp hx with rfl | hx
    · exact le_trans (le_max_right q x) (foldl_max_init_le ys (max q x))
    · exact ih (max q y) hx

theorem foldl_max_le (l : List ℚ) (q c : ℚ) (hq : q ≤ c) (h : ∀ x ∈ l, x ≤ c) :
    l.foldl max q ≤ c := by
  induction l generalizing q with
  | nil => simpa using hq
  | cons x xs ih =>
    exact ih (max q x) (max_le hq (h x (List.mem_cons_self x xs)))
      (fun z hz => h z (List.mem_cons_of_mem x hz))

theorem mem_agentMatchesList_iff (tl : List Char) (m : AgentMatch) :
    m ∈ agentMatchesList tl ↔
      ∃ a ∈ AGENTS, Frac.lt (Frac.ofNat 0) (agentScore tl a) = true ∧
        m = ⟨a.id, a.name, a.description, a.model, agentScore tl a, matchedTriggers tl a⟩ := by
  unfold agentMatchesList
  rw [List.mem_filterMap]
  constructor
  · rintro ⟨a, ha, hf⟩
    by_cases hc : Frac.lt (Frac.ofNat 0) (agentScore tl a) = true
    · rw [if_pos hc] at hf
      exact ⟨a, ha, hc, (Option.some_inj.mp hf).symm⟩
    · rw [if_neg hc] at hf
      cases hf
  · rintro ⟨a, ha, hc, rfl⟩
    exact ⟨a, ha, by rw [if_pos hc]⟩

theorem foldl_score_const (tl : List Char) :
    ∀ (l : List String) (s : Frac), (∀ t ∈ l, triggerMatches tl t = false) →
      l.foldl (fun s t => if triggerMatches tl t then s.add (triggerValue t) else s) s = s := by
  intro l
  induction l with
  | nil => intro s _; rfl
  | cons t ts ih =>
    intro s h
    rw [List.foldl_cons, if_neg (by simp [h t (List.mem_cons_self t ts)])]
    exact ih s (fun u hu => h u (List.mem_cons_of_mem t hu))

theorem agentScore_eq_zero (tl : List Char) (a : Agent)
    (h1 : ∀ t ∈ a.triggers, triggerMatches tl t = false)
    (h2 : descBonus tl a = false) :
    agentScore tl a = Frac.ofNat 0 := by
  unfold agentScore
  rw [foldl_score_const tl a.triggers _ h1, if_neg (by simp [h2])]

theorem sorted_head_ge (tl : List Char) (m : AgentMatch) (rest : List AgentMatch)
    (hS : sortedAgentMatches tl = m :: rest) :
    ∀ z ∈ sortedAgentMatches tl, z.score.toRat ≤ m.score.toRat := by
  have hp := sortOnDesc_pairwise Frac.lt AgentMatch.score
    fracLt_asym fracLt_transNot (agentMatchesList tl)
  rw [← sortedAgentMatches, hS] at hp
  intro z hz
  rw [hS] at hz
  rcases List.mem_cons.mp hz with rfl | hz
  · exact le_refl _
  · exact (Frac.lt_false_iff _ _).mp ((List.pairwise_cons.mp hp).1 z hz)

theorem topAgentScore_eq_maxQ (tl : List Char) :
    (topAgentScore tl).toRat = maxQ (AGENTS.map (fun a => (agentScore tl a).toRat)) := by
  cases hS : sortedAgentMatches tl with
  | nil =>
    have hnil : agentMatchesList tl = [] := by
      have hperm := sortOnDesc_perm Frac.lt AgentMatch.score (agentMatchesList tl)
      rw [← sortedAgentMatches, hS] at hperm
      exact (List.perm_nil.mp hperm.symm)
    have hall : ∀ a ∈ AGENTS, (agentScore tl a).toRat = 0 := by
      intro a ha
      have hnone := List.filterMap_eq_nil.mp hnil a ha
      by_cases hc : Frac.lt (Frac.ofNat 0) (agentScore tl a) = true
      · rw [if_pos hc] at hnone
        cases hnone
      · have hle : (agentScore tl a).toRat ≤ (Frac.ofNat 0).toRat :=
          (Frac.lt_false_iff _ _).mp (by cases h : Frac.lt (Frac.ofNat 0) (agentScore tl a) <;>
            simp_all)
        rw [Frac.toRat_ofNat] at hle
        have hge := agentScore_nonneg tl a
        have : ((0:ℕ):ℚ) = 0 := by norm_num
        rw [this] at hle
        linarith
    have htop : topAgentScore tl = Frac.ofNat 0 := by
      rw [topAgentScore, hS]
    rw [htop, Frac.toRat_ofNat]
    have h1 : maxQ (AGENTS.map (fun a => (agentScore tl a).toRat)) ≤ 0 := by
      apply foldl_max_le
      · exact le_refl 0
      · intro x hx
        rcases List.mem_map.mp hx with ⟨a, ha, rfl⟩
        rw [hall a ha]
    have h2 : (0:ℚ) ≤ maxQ (AGENTS.map (fun a => (agentScore tl a).toRat)) :=
      foldl_max_init_le _ 0
    push_cast
    linarith
  | cons m rest =>
    have htop : topAgentScore tl = m.score := by
      rw [topAgentScore, hS]
    have hm : m ∈ agentMatchesList tl := by
      have hmem : m ∈ sortedAgentMatches tl := by
        rw [hS]
        exact List.mem_cons_self m rest
      exact (sortOnDesc_perm Frac.lt AgentMatch.score (agentMatchesList tl)).mem_iff.mp
        (by rw [sortedAgentMatches] at hmem; exact hmem)
    rcases (mem_agentMatchesList_iff tl m).mp hm with ⟨a, ha, hpos, hrec⟩
    have hms : m.score = agentScore tl a := by rw [hrec]
    have h0 : (0:ℚ) < m.score.toRat := by
      have := (Frac.lt_iff (Frac.ofNat 0) (agentScore tl a)).mp hpos
      rw [Frac.toRat_ofNat] at this
      rw [hms]
      exact_mod_cast this
    rw [htop]
    apply le_antisymm
    · apply foldl_max_mem_le
      rw [hms]
      exact List.mem_map_of_mem _ ha
    · apply foldl_max_le
      · exact le_of_lt h0
      · intro x hx
        rcases List.mem_map.mp hx with ⟨b, hb, rfl⟩
        by_cases hbpos : Frac.lt (Frac.ofNat 0) (agentScore tl b) = true
        · have hmem : (⟨b.id, b.name, b.description, b.model, agentScore tl b,
              matchedTriggers tl b⟩ : AgentMatch) ∈ agentMatchesList tl :=
            (mem_agentMatchesList_iff tl _).mpr ⟨b, hb, hbpos, rfl⟩
          have hmem' : (⟨b.id, b.name, b.description, b.model, agentScore tl b,
              matchedTriggers tl b⟩ : AgentMatch) ∈ sortedAgentMatches tl := by
            rw [sortedAgentMatches]
            exact (sortOnDesc_perm Frac.lt AgentMatch.score _).mem_iff.mpr hmem
          exact sorted_head_ge tl m rest hS _ hmem'
        · have hfalse : Frac.lt (Frac.ofNat 0) (agentScore tl b) = false := by
            cases h : Frac.lt (Frac.ofNat 0) (agentScore tl b) <;> simp_all
          have hle := (Frac.lt_false_iff _ _).mp hfalse
          rw [Frac.toRat_ofNat] at hle
          have : ((0:ℕ):ℚ) = 0 := by norm_num
          rw [this] at hle
          linarith

theorem Frac.le_decide (a b : Frac) : Frac.le a b = decide (a.toRat ≤ b.toRat) :=
  boolEq_of_iff (by rw [Frac.le_iff, decide_eq_true_eq])

/-- Claim-side confidence tier map over the rational top score. -/
def confTier (q : ℚ) : String :=
  if 4 ≤ q then "high" else if 2 ≤ q then "medium" else if 1 ≤ q then "low" else "none"

theorem codeConfidence_cases (top : Frac) :
    codeConfidence top = "high" ∨ codeConfidence top = "medium"
      ∨ codeConfidence top = "low" ∨ codeConfidence top = "none" := by
  unfold codeConfidence
  split_ifs <;> simp

/-- C2: the confidence tier is derived from the top agent score (the
maximum score over the registry, 0 when nothing scores) as: high iff the
top score is at least 4, medium iff at least 2, low iff at least 1, else
none; should_invoke holds exactly for high and medium; and an input that
matches no trigger and earns no description bonus for any agent yields
confidence none with should_invoke false. -/
theorem C2_confidence_tiers (task : String) :
    ((suggest_agent task).confidence
        = confTier (maxQ (AGENTS.map (fun a => (agentScore (lowerL task) a).toRat)))
      ∧ ((suggest_agent task).should_invoke = true ↔
          ((suggest_agent task).confidence = "high"
            ∨ (suggest_agent task).confidence = "medium")))
    ∧ ((∀ a ∈ AGENTS, (∀ t ∈ a.triggers, triggerMatches (lowerL task) t = false)
          ∧ descBonus (lowerL task) a = false) →
        (suggest_agent task).confidence = "none"
          ∧ (suggest_agent task).should_invoke = false) := by
  have hconf : (suggest_agent task).confidence
      = codeConfidence (topAgentScore (lowerL task)) := rfl
  have hsi : (suggest_agent task).should_invoke
      = (codeConfidence (topAgentScore (lowerL task)) == "high"
        || codeConfidence (topAgentScore (lowerL task)) == "medium") := rfl
  refine ⟨⟨?_, ?_⟩, ?_⟩
  · rw [hconf, codeConfidence, confTier]
    have h4 : Frac.le (Frac.ofNat 4) (topAgentScore (lowerL task))
        = decide ((4:ℚ) ≤ maxQ (AGENTS.map (fun a => (agentScore (lowerL task) a).toRat))) := by
      rw [Frac.le_decide, topAgentScore_eq_maxQ, Frac.toRat_ofNat]
      norm_num
    have h2 : Frac.le (Frac.ofNat 2) (topAgentScore (lowerL task))
        = decide ((2:ℚ) ≤ maxQ (AGENTS.map (fun a => (agentScore (lowerL task) a).toRat))) := by
      rw [Frac.le_decide, topAgentScore_eq_maxQ, Frac.toRat_ofNat]
      norm_num
    have h1 : Frac.le (Frac.ofNat 1) (topAgentScore (lowerL task))
        = decide ((1:ℚ) ≤ maxQ (AGENTS.map (fun a => (agentScore (lowerL task) a).toRat))) := by
      rw [Frac.le_decide, topAgentScore_eq_maxQ, Frac.toRat_ofNat]
      norm_num
    rw [h4, h2, h1]
    simp only [decide_eq_true_eq]
  · rw [hsi, hconf]
    rcases codeConfidence_cases (topAgentScore (lowerL task)) with h | h | h | h <;>
      rw [h] <;> simp
  · intro hz
    have hforall : ∀ a ∈ AGENTS, agentScore (lowerL task) a = Frac.ofNat 0 :=
      fun a ha => agentScore_eq_zero _ a (hz a ha).1 (hz a ha).2
    have hnil : agentMatchesList (lowerL task) = [] := by
      apply List.filterMap_eq_nil.mpr
      intro a ha
      rw [hforall a ha, if_neg (by decide)]
    have hsorted : sortedAgentMatches (lowerL task) = [] := by
      rw [sortedAgentMatches, hnil]
      rfl
    have htop : topAgentScore (lowerL task) = Frac.ofNat 0 := by
      rw [topAgentScore, hsorted]
    constructor
    · rw [hconf, htop]
      decide
    · rw [hsi, htop]
      decide

/-- Witness for C2 at the no-match input "zzz". -/
theorem C2_confidence_tiers_witness :
    (suggest_agent "zzz").confidence = "none" ∧ (suggest_agent "zzz").should_invoke = false :=
  (C2_confidence_tiers "zzz").2 (by decide)

/-! ### C3: the disambiguation note -/

theorem filterMap_map_agent (tl : List Char) : ∀ L : List Agent,
    ((L.filterMap (fun a =>
        if Frac.lt (Frac.ofNat 0) (agentScore tl a) then
          some ({ agent := a.id, name := a.name, description := a.description,
                  model := a.model, score := agentScore tl a,
                  matched_triggers := matchedTriggers tl a } : AgentMatch)
        else none)).map (fun m => m.agent))
      = (L.filter (fun a => Frac.lt (Frac.ofNat 0) (agentScore tl a))).map (fun a => a.id) := by
  intro L
  induction L with
  | nil => rfl
  | cons a as ih =>
    rw [List.filterMap_cons, List.filter_cons]
    by_cases h : Frac.lt (Frac.ofNat 0) (agentScore tl a) = true
    · rw [if_pos h]
      simp [h, ih]
    · rw [if_neg h]
      have hf : Frac.lt (Frac.ofNat 0) (agentScore tl a) = false := by
        cases hx : Frac.lt (Frac.ofNat 0) (agentScore tl a) <;> simp_all
      simp [hf, ih]

theorem agentMatchesList_ids_nodup (tl : List Char) :
    ((agentMatchesList tl).map (fun m => m.agent)).Nodup := by
  rw [agentMatchesList, filterMap_map_agent]
  exact agents_ids_nodup.sublist ((List.filter_sublist AGENTS).map (fun a => a.id))

theorem sortedAgentMatches_ids_nodup (tl : List Char) :
    ((sortedAgentMatches tl).map (fun m => m.agent)).Nodup := by
  have hperm := (sortOnDesc_perm Frac.lt AgentMatch.score (agentMatchesList tl)).map
    (fun m => m.agent)
  exact (hperm.nodup_iff).mpr (agentMatchesList_ids_nodup tl)

/-- C3: the result of suggest_agent carries a disambiguation note exactly
when at least two agents score above zero and the two top scores are
equal, and the note then names exactly the agents whose score equals the
top score; otherwise no note is attached. -/
theorem C3_disambiguation (task : String) :
    (∀ l, (suggest_agent task).disambiguation = some l →
        2 ≤ (sortedAgentMatches (lowerL task)).length
        ∧ (∀ m ∈ sortedAgentMatches (lowerL task),
            (m.agent ∈ l ↔ m.score.toRat = (topAgentScore (lowerL task)).toRat)))
    ∧ (∀ m0 m1 rest, sortedAgentMatches (lowerL task) = m0 :: m1 :: rest →
        m0.score.toRat = m1.score.toRat →
        ∃ l, (suggest_agent task).disambiguation = some l)
    ∧ (∀ m0 m1 rest, sortedAgentMatches (lowerL task) = m0 :: m1 :: rest →
        m0.score.toRat ≠ m1.score.toRat → (suggest_agent task).disambiguation = none)
    ∧ ((sortedAgentMatches (lowerL task)).length < 2 →
        (suggest_agent task).disambiguation = none) := by
  have hdis : (suggest_agent task).disambiguation
      = codeDisambiguation (sortedAgentMatches (lowerL task)) := rfl
  refine ⟨?_, ?_, ?_, ?_⟩
  · intro l hl
    rw [hdis] at hl
    rcases hS : sortedAgentMatches (lowerL task) with _ | ⟨m0, _ | ⟨m1, rest⟩⟩
    · rw [hS] at hl
      cases hl
    · rw [hS] at hl
      cases hl
    · rw [hS] at hl
      rw [codeDisambiguation] at hl
      by_cases heq : Frac.eqb m0.score m1.score = true
      · rw [if_pos heq] at hl
        have hl' := Option.some_inj.mp hl
        have hnd : ((m0 :: m1 :: rest).map (fun m => m.agent)).Nodup := by
          rw [← hS]
          exact sortedAgentMatches_ids_nodup (lowerL task)
        constructor
        · simp
        · intro m hm
          have htop : topAgentScore (lowerL task) = m0.score := by
            rw [topAgentScore, hS]
          rw [htop, ← hl']
          constructor
          · intro hmem
            rcases List.mem_map.mp hmem with ⟨m', hm', hag⟩
            have hm'' := List.mem_of_mem_filter hm'
            have heq' : m' = m := List.inj_on_of_nodup_map hnd hm'' hm hag
            have := (List.mem_filter.mp hm').2
            rw [heq'] at this
            exact (Frac.eqb_iff _ _).mp this
          · intro hsc
            apply List.mem_map_of_mem
            apply List.mem_filter.mpr
            exact ⟨hm, (Frac.eqb_iff _ _).mpr hsc⟩
      · have heq' : Frac.eqb m0.score m1.score = false := by
          cases hx : Frac.eqb m0.score m1.score <;> simp_all
        rw [if_neg (by simp [heq'])] at hl
        cases hl
  · intro m0 m1 rest hS heq
    rw [hdis, hS, codeDisambiguation, if_pos ((Frac.eqb_iff _ _).mpr heq)]
    exact ⟨_, rfl⟩
  · intro m0 m1 rest hS hne
    rw [hdis, hS, codeDisambiguation, if_neg (by simp [(Frac.eqb_false_iff _ _).mpr hne])]
  · intro hlen
    rw [hdis]
    rcases hS : sortedAgentMatches (lowerL task) with _ | ⟨m0, _ | ⟨m1, rest⟩⟩
    · rfl
    · rfl
    · rw [hS] at hlen
      simp at hlen
      omega

set_option maxRecDepth 40000 in
/-- Witness for C3 at the tied input "ldtk" (both `sprite-2d-artist` and
`ldtk-validator` score exactly 2). -/
theorem C3_disambiguation_witness :
    2 ≤ (sortedAgentMatches (lowerL "ldtk")).length
      ∧ (suggest_agent "ldtk").disambiguation = some ["sprite-2d-artist", "ldtk-validator"] := by
  have h := (C3_disambiguation "ldtk").1 ["sprite-2d-artist", "ldtk-validator"] (by decide)
  exact ⟨h.1, by decide⟩

/-! ### C4: ranked lists are stably sorted by descending score -/

/-- C4: both ranked lists are sorted by non-increasing score, the returned
lists are the truncations of the full stable sort, and entries with equal
scores keep the original registry/index load order (the filter of the
sorted list at any fixed score value equals the filter of the load-order
match list). -/
theorem C4_stable_descending_sort (task : String) :
    ((find_relevant_context task).relevant_subsystems.Pairwise
        (fun a b => b.score ≤ a.score)
      ∧ (find_relevant_context task).relevant_subsystems
          = (sortedSubMatches (lowerL task)).take 5
      ∧ (∀ n : Nat,
          (sortedSubMatches (lowerL task)).filter (fun m => decide (m.score = n))
            = (subMatches (lowerL task)).filter (fun m => decide (m.score = n))))
    ∧ ((suggest_agent task).suggested_agents.Pairwise
        (fun a b => b.score.toRat ≤ a.score.toRat)
      ∧ (suggest_agent task).suggested_agents = (sortedAgentMatches (lowerL task)).take 3
      ∧ (∀ q : ℚ,
          (sortedAgentMatches (lowerL task)).filter (fun m => decide (m.score.toRat = q))
            = (agentMatchesList (lowerL task)).filter
                (fun m => decide (m.score.toRat = q)))) := by
  refine ⟨⟨?_, rfl, ?_⟩, ?_, rfl, ?_⟩
  · have hp := sortOnDesc_pairwise natLt SubMatch.score
      natLt_asym natLt_transNot (subMatches (lowerL task))
    have hp5 : ((sortedSubMatches (lowerL task)).take 5).Pairwise
        (fun a b => natLt a.score b.score = false) :=
      hp.sublist (List.take_sublist 5 _)
    exact hp5.imp (fun hab => by
      simpa only [natLt, decide_eq_false_iff_not, not_lt] using hab)
  · intro n
    exact sortOnDesc_filter natLt (fun a b => decide (a = b)) SubMatch.score
      natLt_asym natLt_transNot natEqb_congr natLt_irrefl n (subMatches (lowerL task))
  · have hp := sortOnDesc_pairwise Frac.lt AgentMatch.score
      fracLt_asym fracLt_transNot (agentMatchesList (lowerL task))
    have hp3 : ((sortedAgentMatches (lowerL task)).take 3).Pairwise
        (fun a b => Frac.lt a.score b.score = false) :=
      hp.sublist (List.take_sublist 3 _)
    exact hp3.imp (fun hab => (Frac.lt_false_iff _ _).mp hab)
  · intro q
    have hb : (Frac.toRat ⟨q.num, ⟨q.den, Rat.den_pos q⟩⟩) = q := by
      unfold Frac.toRat
      exact Rat.num_div_den q
    have hcongr : ∀ L : List AgentMatch,
        L.filter (fun m => decide (m.score.toRat = q))
          = L.filter (fun m => Frac.eqb m.score ⟨q.num, ⟨q.den, Rat.den_pos q⟩⟩) := by
      intro L
      apply List.filter_congr
      intro m _
      apply boolEq_of_iff
      rw [decide_eq_true_eq, Frac.eqb_iff, hb]
    rw [hcongr, hcongr]
    exact sortOnDesc_filter Frac.lt Frac.eqb AgentMatch.score
      fracLt_asym fracLt_transNot fracEqb_congr fracLt_irrefl
      ⟨q.num, ⟨q.den, Rat.den_pos q⟩⟩ (agentMatchesList (lowerL task))

/-! ### C5: the find_relevant_context scoring rule -/

theorem mem_subMatches_iff (tl : List Char) (m : SubMatch) :
    m ∈ subMatches tl ↔
      ∃ s ∈ SUBSYSTEMS, 0 < subsystemScore tl s ∧
        m = ⟨s.key, s.name, subsystemScore tl s, matchedKeywords tl s, s.files⟩ := by
  unfold subMatches
  rw [List.mem_filterMap]
  constructor
  · rintro ⟨s, hs, hf⟩
    by_cases hc : 0 < subsystemScore tl s
    · rw [if_pos hc] at hf
      exact ⟨s, hs, hc, (Option.some_inj.mp hf).symm⟩
    · rw [if_neg hc] at hf
      cases hf
  · rintro ⟨s, hs, hc, rfl⟩
    exact ⟨s, hs, by rw [if_pos hc]⟩

/-- C5: a subsystem's score is the number of its keywords occurring as
substrings of the lower-cased text plus 2 when its lower-cased display
name occurs as a substring; zero-scoring subsystems are dropped while
every positively scoring subsystem is ranked; and on the input
"fix the sync issue" the `networking` subsystem scores exactly 1. -/
theorem C5_relevance_scoring :
    (∀ (task : String) (s : Subsystem),
        subsystemScore (lowerL task) s
          = s.keywords.countP (fun k => occursIn k.toList (lowerL task))
            + (if occursIn (lowerL s.name) (lowerL task) then 2 else 0))
    ∧ (∀ task : String, ∀ m ∈ (find_relevant_context task).relevant_subsystems, 0 < m.score)
    ∧ (∀ task : String, ∀ s ∈ SUBSYSTEMS, 0 < subsystemScore (lowerL task) s →
        ∃ m ∈ sortedSubMatches (lowerL task),
          m.subsystem = s.key ∧ m.score = subsystemScore (lowerL task) s)
    ∧ ((SUBSYSTEMS.find? (fun s => s.key == "networking")).map
          (fun s => subsystemScore (lowerL "fix the sync issue") s) = some 1) := by
  refine ⟨?_, ?_, ?_, by decide⟩
  · intro task s
    unfold subsystemScore
    rw [foldl_count_eq]
    omega
  · intro task m hm
    have hm' : m ∈ sortedSubMatches (lowerL task) :=
      List.mem_of_mem_take hm
    have hm'' : m ∈ subMatches (lowerL task) :=
      (sortOnDesc_perm natLt SubMatch.score (subMatches (lowerL task))).mem_iff.mp hm'
    rcases (mem_subMatches_iff (lowerL task) m).mp hm'' with ⟨s, _, hpos, rfl⟩
    exact hpos
  · intro task s hs hpos
    refine ⟨⟨s.key, s.name, subsystemScore (lowerL task) s, matchedKeywords (lowerL task) s,
      s.files⟩, ?_, rfl, rfl⟩
    exact (sortOnDesc_perm natLt SubMatch.score (subMatches (lowerL task))).mem_iff.mpr
      ((mem_subMatches_iff (lowerL task) _).mpr ⟨s, hs, hpos, rfl⟩)

set_option maxRecDepth 4000 in
/-- Witness for C5 at the subsystem `ecs` and the task "entity". -/
theorem C5_relevance_scoring_witness :
    (∃ m ∈ sortedSubMatches (lowerL "entity"),
        m.subsystem = "ecs" ∧ m.score = subsystemScore (lowerL "entity") subEcs)
      ∧ 0 < subsystemScore (lowerL "entity") subEcs := by
  have h := C5_relevance_scoring.2.2.1 "entity" subEcs (by decide) (by decide)
  exact ⟨h, by decide⟩

/-! ### C6: the suggested file list -/

/-- Keep the first occurrence of every string, in order: the claim-side
formulation of order-preserving deduplication. -/
def dedupFirst : List String → List String
  | [] => []
  | x :: xs => x :: dedupFirst (xs.filter (fun y => !(y == x)))
termination_by l => l.length
decreasing_by
  simp only [List.length_cons]
  exact Nat.lt_succ_of_le (List.length_filter_le _ xs)

/-- The append-if-absent loop of the code, over a whole list. -/
def dedupAppend : List String → List String → List String
  | acc, [] => acc
  | acc, x :: xs => if acc.contains x then dedupAppend acc xs else dedupAppend (acc ++ [x]) xs

theorem foldl_dedup_eq (fs : List String) : ∀ acc : List String,
    fs.foldl (fun acc2 f => if acc2.contains (fullPath f) then acc2
        else acc2 ++ [fullPath f]) acc
      = dedupAppend acc (fs.map fullPath) := by
  induction fs with
  | nil => intro acc; rfl
  | cons f fs ih =>
    intro acc
    rw [List.foldl_cons, List.map_cons]
    simp only [dedupAppend]
    cases h : acc.contains (fullPath f)
    · rw [if_neg (by simp), if_neg (by simp)]
      exact ih _
    · rw [if_pos rfl, if_pos rfl]
      exact ih _

theorem dedupAppend_append (l1 l2 : List String) : ∀ acc,
    dedupAppend acc (l1 ++ l2) = dedupAppend (dedupAppend acc l1) l2 := by
  induction l1 with
  | nil => intro acc; rfl
  | cons x xs ih =>
    intro acc
    rw [List.cons_append]
    simp only [dedupAppend]
    cases h : acc.contains x
    · rw [if_neg (by simp), if_neg (by simp)]
      exact ih _
    · rw [if_pos rfl, if_pos rfl]
      exact ih _

theorem buildFiles_eq (ms : List SubMatch) :
    buildFiles ms
      = dedupAppend [] (((ms.take 3).map (fun m => m.files.map fullPath)).flatten) := by
  unfold buildFiles
  generalize ms.take 3 = ts
  suffices h : ∀ (ts : List SubMatch) (acc : List String),
      ts.foldl (fun acc m => m.files.foldl (fun acc2 f =>
          if acc2.contains (fullPath f) then acc2 else acc2 ++ [fullPath f]) acc) acc
        = dedupAppend acc ((ts.map (fun m => m.files.map fullPath)).flatten) by
    exact h ts []
  intro ts
  induction ts with
  | nil => intro acc; rfl
  | cons m ts ih =>
    intro acc
    rw [List.foldl_cons, foldl_dedup_eq m.files acc, ih]
    exact (dedupAppend_append (m.files.map fullPath)
      ((ts.map (fun m => m.files.map fullPath)).flatten) acc).symm

theorem contains_append_single (acc : List String) (x a : String) :
    (acc ++ [x]).contains a = (acc.contains a || a == x) := by
  induction acc with
  | nil =>
    cases hx : a == x <;> simp [List.contains, List.elem, hx]
  | cons b bs ih =>
    rcases hba : (a == b) <;> simp_all [List.contains_cons]

theorem dedupAppend_eq_dedupFirst (l : List String) : ∀ acc,
    dedupAppend acc l = acc ++ dedupFirst (l.filter (fun x => !(acc.contains x))) := by
  induction l with
  | nil => intro acc; simp [dedupAppend, dedupFirst]
  | cons x xs ih =>
    intro acc
    simp only [dedupAppend, List.filter_cons]
    cases h : acc.contains x
    · rw [if_neg (by simp), ih (acc ++ [x]), if_pos (by simp)]
      rw [dedupFirst]
      have hfil : xs.filter (fun y => !((acc ++ [x]).contains y))
          = (xs.filter (fun y => !(acc.contains y))).filter (fun y => !(y == x)) := by
        rw [List.filter_filter]
        apply List.filter_congr
        intro a _
        rw [contains_append_single]
        cases hc : acc.contains a <;> cases hx : (a == x) <;> simp [hc, hx]
      rw [hfil]
      simp [List.append_assoc]
    · rw [if_pos rfl, ih acc, if_neg (by simp)]

theorem dedupAppend_nil_eq (l : List String) : dedupAppend [] l = dedupFirst l := by
  rw [dedupAppend_eq_dedupFirst l []]
  have : l.filter (fun x => !(([] : List String).contains x)) = l := by
    apply List.filter_eq_self.mpr
    intro a _
    simp
  rw [this]
  simp

/-- Claim-side suggested-file construction: qualified files of the top 3
ranked subsystems in rank order, first-occurrence deduplicated, truncated
to 10. -/
def specSuggestedFiles (ms : List SubMatch) : List String :=
  (dedupFirst (((ms.take 3).map (fun m => m.files.map fullPath)).flatten)).take 10

/-- C6: the suggested_files list is built by walking the top 3 ranked
subsystems in rank order, appending each base-path-qualified pattern with
order-preserving deduplication, then truncating to 10; the ranked
subsystem list has at most 5 entries and the file list at most 10. -/
theorem C6_suggested_files (task : String) :
    (find_relevant_context task).suggested_files
        = specSuggestedFiles (sortedSubMatches (lowerL task))
      ∧ (find_relevant_context task).relevant_subsystems.length ≤ 5
      ∧ (find_relevant_context task).suggested_files.length ≤ 10 := by
  refine ⟨?_, ?_, ?_⟩
  · show (buildFiles (sortedSubMatches (lowerL task))).take 10 = _
    rw [buildFiles_eq, dedupAppend_nil_eq]
    rfl
  · show ((sortedSubMatches (lowerL task)).take 5).length ≤ 5
    rw [List.length_take]
    omega
  · show ((buildFiles (sortedSubMatches (lowerL task))).take 10).length ≤ 10
    rw [List.length_take]
    omega

/-! ### C7: get_files_for_subsystem lookup and error payload -/

/-- C7: a known key returns the subsystem's name, description and
base-path-qualified files and is never the not-found error (so the
list_subsystems round-trip never errors), while an unknown key returns the
error payload whose available list is exactly the full key list. -/
theorem C7_files_for_subsystem (key : String) :
    (∀ s : Subsystem, SUBSYSTEMS.find? (fun t => t.key == key) = some s →
        get_files_for_subsystem key
          = FilesResult.ok key s.name s.description (s.files.map fullPath))
    ∧ (SUBSYSTEMS.find? (fun t => t.key == key) = none →
        get_files_for_subsystem key
          = FilesResult.err ("Unknown subsystem: " ++ key) subsystemKeys)
    ∧ (key ∈ list_subsystems.map (fun p => p.1) →
        (get_files_for_subsystem key).isErr = false) := by
  refine ⟨?_, ?_, ?_⟩
  · intro s hs
    rw [get_files_for_subsystem, hs]
  · intro hn
    rw [get_files_for_subsystem, hn]
    rfl
  · intro hk
    have hex : ∃ s ∈ SUBSYSTEMS, (s.key == key) = true := by
      rcases List.mem_map.mp hk with ⟨p, hp, hkey⟩
      rcases List.mem_map.mp hp with ⟨s, hs, rfl⟩
      exact ⟨s, hs, by rw [← hkey]; exact beq_self_eq_true s.key⟩
    have hsome := List.find?_isSome.mpr hex
    rcases hfind : SUBSYSTEMS.find? (fun t => t.key == key) with _ | s
    · rw [hfind] at hsome
      cases hsome
    · rw [get_files_for_subsystem, hfind]
      rfl

/-- Witness for C7 at the known key "ecs" and the unknown key "nosuch". -/
theorem C7_files_for_subsystem_witness :
    ("ecs" ∈ list_subsystems.map (fun p => p.1))
      ∧ (get_files_for_subsystem "ecs").isErr = false
      ∧ get_files_for_subsystem "nosuch"
          = FilesResult.err ("Unknown subsystem: " ++ "nosuch") subsystemKeys :=
  ⟨by decide, (C7_files_for_subsystem "ecs").2.2 (by decide),
    (C7_files_for_subsystem "nosuch").2.1 (by decide)⟩

/-! ### C8: monotonicity and the superset-rank assertion -/

theorem countP_mono (p q : String → Bool) :
    ∀ l : List String, (∀ a ∈ l, p a = true → q a = true) → l.countP p ≤ l.countP q := by
  intro l
  induction l with
  | nil => intro _; simp
  | cons a as ih =>
    intro h
    rw [List.countP_cons, List.countP_cons]
    have hrest := ih (fun b hb => h b (List.mem_cons_of_mem a hb))
    cases hp : p a
    · simp only [Bool.false_eq_true, if_false]
      omega
    · rw [h a (List.mem_cons_self a as) hp]
      simp only [if_pos rfl]
      omega

theorem subsystem_key_inj {s1 s2 : Subsystem} (h1 : s1 ∈ SUBSYSTEMS) (h2 : s2 ∈ SUBSYSTEMS)
    (hk : s1.key = s2.key) : s1 = s2 :=
  List.inj_on_of_nodup_map subsystems_keys_nodup h1 h2 hk

theorem subMatch_score_by_key (tl : List Char) (s : Subsystem) (hs : s ∈ SUBSYSTEMS)
    (m : SubMatch) (hm : m ∈ subMatches tl) (hk : m.subsystem = s.key) :
    m.score = subsystemScore tl s ∧ m.matched_keywords = matchedKeywords tl s := by
  rcases (mem_subMatches_iff tl m).mp hm with ⟨s2, hs2, hpos, rfl⟩
  have heq : s2 = s := subsystem_key_inj hs2 hs hk
  subst heq
  exact ⟨rfl, rfl⟩

theorem matched_length_lt (tl : List Char) (A B : Subsystem)
    (hA : A ∈ SUBSYSTEMS) (hB : B ∈ SUBSYSTEMS)
    (hsub : ∀ k ∈ matchedKeywords tl B, k ∈ matchedKeywords tl A)
    (hstrict : ∃ k ∈ matchedKeywords tl A, k ∉ matchedKeywords tl B) :
    (matchedKeywords tl B).length < (matchedKeywords tl A).length := by
  have hndA : (matchedKeywords tl A).Nodup := (subsystems_keywords_nodup A hA).filter _
  have hndB : (matchedKeywords tl B).Nodup := (subsystems_keywords_nodup B hB).filter _
  rcases hstrict with ⟨k, hkA, hkB⟩
  have hsubF : (matchedKeywords tl B).toFinset ⊆ (matchedKeywords tl A).toFinset := by
    intro x hx
    rw [List.mem_toFinset] at hx ⊢
    exact hsub x hx
  have hssub : (matchedKeywords tl B).toFinset ⊂ (matchedKeywords tl A).toFinset := by
    refine lt_of_le_of_ne hsubF ?_
    intro heq
    have hkAF : k ∈ (matchedKeywords tl A).toFinset := List.mem_toFinset.mpr hkA
    rw [← heq] at hkAF
    exact hkB (List.mem_toFinset.mp hkAF)
  have hcard := Finset.card_lt_card hssub
  rw [List.toFinset_card_of_nodup hndA, List.toFinset_card_of_nodup hndB] at hcard
  exact hcard

theorem subsystemScore_of_no_name (tl : List Char) (s : Subsystem)
    (hname : occursIn (lowerL s.name) tl = false) :
    subsystemScore tl s = (matchedKeywords tl s).length := by
  unfold subsystemScore matchedKeywords
  rw [foldl_count_eq, hname, List.countP_eq_length_filter]
  simp

theorem matched_length_le_score (tl : List Char) (s : Subsystem) :
    (matchedKeywords tl s).length ≤ subsystemScore tl s := by
  unfold subsystemScore matchedKeywords
  rw [foldl_count_eq, List.countP_eq_length_filter]
  split <;> omega

/-- Claim C8's second assertion, exactly as stated: on any input, a
subsystem whose matched keyword set strictly contains another subsystem's
matched keyword set never appears at a later rank than that other
subsystem in the find_relevant_context result. -/
def supersetNeverRanksBelow : Prop :=
  ∀ (task : String) (A B : Subsystem), A ∈ SUBSYSTEMS → B ∈ SUBSYSTEMS →
    (∀ k ∈ matchedKeywords (lowerL task) B, k ∈ matchedKeywords (lowerL task) A) →
    (∃ k ∈ matchedKeywords (lowerL task) A, k ∉ matchedKeywords (lowerL task) B) →
    ∀ i j : Nat,
      ((find_relevant_context task).relevant_subsystems.map (fun m => m.subsystem))[i]?
          = some A.key →
      ((find_relevant_context task).relevant_subsystems.map (fun m => m.subsystem))[j]?
          = some B.key →
      i ≤ j

set_option maxRecDepth 40000 in
/-- Counterexample to C8 as stated: on "rendering test" the `devtools`
subsystem matches the keywords "test" and "render", a strict superset of
the single keyword "render" matched by `rendering`, yet `rendering` (with
the +2 name bonus, score 3) ranks above `devtools` (score 2). -/
theorem C8_rank_counterexample : ¬ supersetNeverRanksBelow := by
  intro h
  have h10 := h "rendering test" subDevtools subRendering (by decide) (by decide)
    (by decide) (by decide) 1 0 (by decide) (by decide)
  omega

/-- C8 (amended): a subsystem's find_relevant_context score is
monotonically non-decreasing when its set of matched keywords grows while
the name signal is unchanged; and a subsystem whose matched keyword set
strictly contains another subsystem's matched keyword set never ranks
below that other subsystem provided the other subsystem does not receive
the +2 display-name bonus (the counterexample above shows the bonus
exception is necessary). -/
theorem C8_monotone_rank :
    (∀ (s : Subsystem) (t1 t2 : String),
        (∀ k ∈ matchedKeywords (lowerL t1) s, k ∈ matchedKeywords (lowerL t2) s) →
        occursIn (lowerL s.name) (lowerL t1) = occursIn (lowerL s.name) (lowerL t2) →
        subsystemScore (lowerL t1) s ≤ subsystemScore (lowerL t2) s)
    ∧ (∀ (task : String) (A B : Subsystem), A ∈ SUBSYSTEMS → B ∈ SUBSYSTEMS →
        (∀ k ∈ matchedKeywords (lowerL task) B, k ∈ matchedKeywords (lowerL task) A) →
        (∃ k ∈ matchedKeywords (lowerL task) A, k ∉ matchedKeywords (lowerL task) B) →
        occursIn (lowerL B.name) (lowerL task) = false →
        ∀ i j : Nat,
          ((find_relevant_context task).relevant_subsystems.map (fun m => m.subsystem))[i]?
              = some A.key →
          ((find_relevant_context task).relevant_subsystems.map (fun m => m.subsystem))[j]?
              = some B.key →
          i < j) := by
  constructor
  · intro s t1 t2 hsub hname
    have hkw : ∀ k ∈ s.keywords, occursIn k.toList (lowerL t1) = true →
        occursIn k.toList (lowerL t2) = true := by
      intro k hk h1
      exact (List.mem_filter.mp (hsub k (List.mem_filter.mpr ⟨hk, h1⟩))).2
    unfold subsystemScore
    rw [foldl_count_eq, foldl_count_eq, hname]
    have := countP_mono _ _ s.keywords hkw
    omega
  · intro task A B hA hB hsub hstrict hBname i j hi hj
    rw [List.getElem?_map] at hi hj
    rcases Option.map_eq_some'.mp hi with ⟨mi, hmi, hkeyA⟩
    rcases Option.map_eq_some'.mp hj with ⟨mj, hmj, hkeyB⟩
    have hrs : (find_relevant_context task).relevant_subsystems
        = (sortedSubMatches (lowerL task)).take 5 := rfl
    rw [hrs] at hmi hmj
    rcases List.getElem?_eq_some.mp hmi with ⟨hilen, hieq⟩
    rcases List.getElem?_eq_some.mp hmj with ⟨hjlen, hjeq⟩
    have hmiMem : mi ∈ subMatches (lowerL task) := by
      have hmem : mi ∈ (sortedSubMatches (lowerL task)).take 5 := by
        rw [← hieq]
        exact List.getElem_mem hilen
      exact (sortOnDesc_perm natLt SubMatch.score _).mem_iff.mp
        (List.mem_of_mem_take hmem)
    have hmjMem : mj ∈ subMatches (lowerL task) := by
      have hmem : mj ∈ (sortedSubMatches (lowerL task)).take 5 := by
        rw [← hjeq]
        exact List.getElem_mem hjlen
      exact (sortOnDesc_perm natLt SubMatch.score _).mem_iff.mp
        (List.mem_of_mem_take hmem)
    have hscoreA := (subMatch_score_by_key (lowerL task) A hA mi hmiMem hkeyA).1
    have hscoreB := (subMatch_score_by_key (lowerL task) B hB mj hmjMem hkeyB).1
    have hlt : subsystemScore (lowerL task) B < subsystemScore (lowerL task) A := by
      have h1 := subsystemScore_of_no_name (lowerL task) B hBname
      have h2 := matched_length_le_score (lowerL task) A
      have h3 := matched_length_lt (lowerL task) A B hA hB hsub hstrict
      omega
    by_contra hcon
    push_neg at hcon
    rcases Nat.lt_or_ge j i with hji | hij
    · have hp : ((sortedSubMatches (lowerL task)).take 5).Pairwise
          (fun a b => natLt a.score b.score = false) :=
        (sortOnDesc_pairwise natLt SubMatch.score natLt_asym natLt_transNot
          (subMatches (lowerL task))).sublist (List.take_sublist 5 _)
      have hrel := List.pairwise_iff_getElem.mp hp j i hjlen hilen hji
      rw [hjeq, hieq] at hrel
      simp only [natLt, decide_eq_false_iff_not, not_lt] at hrel
      omega
    · have hij' : i = j := le_antisymm hij hcon
      subst hij'
      have hmeq : mi = mj := by
        rw [← hieq, ← hjeq]
      have hkeq : A.key = B.key := by
        rw [← hkeyA, hmeq, hkeyB]
      have : A = B := subsystem_key_inj hA hB hkeq
      subst this
      omega

set_option maxRecDepth 40000 in
/-- Witness for C8 (amended) at the monotone pair "render" / "render test"
for `rendering`, and at "rendering test" where `devtools` (rank 1) stays
above `dungeon-debug` (rank 2). -/
theorem C8_monotone_rank_witness :
    subsystemScore (lowerL "render") subRendering
        ≤ subsystemScore (lowerL "render test") subRendering
      ∧ (1:ℕ) < 2 :=
  ⟨C8_monotone_rank.1 subRendering "render" "render test" (by decide) (by decide),
    C8_monotone_rank.2 "rendering test" subDevtools subDungeonDebug (by decide) (by decide)
      (by decide) (by decide) (by decide) 1 2 (by decide) (by decide)⟩

/-! ### C9: unreadable documents are silently skipped -/

theorem filterMap_skip_none {γ : Type} (g : String × Option String → Option γ)
    (hg : ∀ n, g (n, none) = none) :
    ∀ docs : List (String × Option String),
      docs.filterMap g = (docs.filter (fun d => d.2.isSome)).filterMap g := by
  intro docs
  induction docs with
  | nil => rfl
  | cons d ds ih =>
    rcases d with ⟨n, c⟩
    cases c with
    | none =>
      rw [List.filterMap_cons, hg n, List.filter_cons]
      simpa using ih
    | some v =>
      rw [List.filter_cons]
      simp only [Option.isSome_some]
      rw [if_pos trivial, List.filterMap_cons, List.filterMap_cons]
      cases hgv : g (n, some v) <;> simp [hgv, ih]

/-- C9: a document whose read fails (modelled as `none` content) is
silently omitted: the whole search result equals the result over the
readable documents alone, so one bad file never fails the operation. -/
theorem C9_unreadable_documents_skipped (docs : List (String × Option String))
    (query : String) :
    search_context_documents docs query
      = search_context_documents (docs.filter (fun d => d.2.isSome)) query := by
  unfold search_context_documents
  have h := filterMap_skip_none
    (fun d => match d.2 with
      | none => none
      | some content => searchDoc (lowerL query) d.1 content)
    (fun _ => rfl) docs
  rw [h]

/-! ### C10: triggers containing a non-word character never match -/

theorem tokenizeAux_wordChars :
    ∀ cs acc : List Char, (∀ c ∈ acc, isWordChar c = true) →
      ∀ t ∈ tokenizeAux cs acc, ∀ c ∈ t, isWordChar c = true := by
  intro cs
  induction cs with
  | nil =>
    intro acc hacc t ht c hc
    rw [tokenizeAux] at ht
    split at ht
    · cases ht
    · rcases List.mem_singleton.mp ht with rfl
      exact hacc c (List.mem_reverse.mp hc)
  | cons d ds ih =>
    intro acc hacc t ht c hc
    rw [tokenizeAux] at ht
    by_cases hw : isWordChar d = true
    · rw [if_pos hw] at ht
      refine ih (d :: acc) ?_ t ht c hc
      intro e he
      rcases List.mem_cons.mp he with rfl | he
      · exact hw
      · exact hacc e he
    · rw [if_neg hw] at ht
      split at ht
      · exact ih [] (by intro e he; cases he) t ht c hc
      · rcases List.mem_cons.mp ht with rfl | ht
        · exact hacc c (List.mem_reverse.mp hc)
        · exact ih [] (by intro e he; cases he) t ht c hc

theorem tokenize_wordChars (cs : List Char) :
    ∀ t ∈ tokenize cs, ∀ c ∈ t, isWordChar c = true :=
  tokenizeAux_wordChars cs [] (by intro c hc; cases hc)

theorem foldl_score_filter_ne (tl : List Char) (t : String)
    (ht : triggerMatches tl t = false) :
    ∀ (l : List String) (s : Frac),
      l.foldl (fun s u => if triggerMatches tl u then s.add (triggerValue u) else s) s
        = (l.filter (fun u => !(u == t))).foldl
            (fun s u => if triggerMatches tl u then s.add (triggerValue u) else s) s := by
  intro l
  induction l with
  | nil => intro s; rfl
  | cons u us ih =>
    intro s
    rw [List.foldl_cons, List.filter_cons]
    by_cases hu : (u == t) = true
    · have hut : u = t := eq_of_beq hu
      rw [hu]
      simp only [Bool.not_true]
      rw [if_neg (by rw [hut, ht]; exact Bool.false_ne_true), if_neg Bool.false_ne_true]
      exact ih s
    · have hu' : (u == t) = false := by
        cases hx : (u == t) <;> simp_all
      rw [hu']
      simp only [Bool.not_false]
      rw [if_pos trivial, List.foldl_cons]
      by_cases hm : triggerMatches tl u = true
      · rw [if_pos hm]
        exact ih _
      · rw [if_neg hm]
        exact ih _

/-- C10 (amended): any agent trigger that splits into a single
whitespace-delimited token containing a non-word character can never
match (its word-set membership test always fails, since tokens consist of
word characters only), hence never appears in a matched-trigger list and
never contributes to any score; e.g. the registry triggers "a*",
"pub/sub", "lock-on", "anti-cheat", "power-up", "half-res",
"multi-texture" and "data-driven" are such triggers (a non-exhaustive
list of examples, each verified to be an agent trigger of this shape). -/
theorem C10_nonword_triggers :
    (∀ task t : String, (splitWs t.toList).length = 1 →
        (∃ c ∈ t.toList, isWordChar c = false) →
        triggerMatches (lowerL task) t = false
        ∧ (∀ a : Agent, t ∉ matchedTriggers (lowerL task) a)
        ∧ (∀ a : Agent, agentScore (lowerL task) a
            = agentScore (lowerL task)
                { a with triggers := a.triggers.filter (fun u => !(u == t)) }))
    ∧ (∀ u ∈ (["a*", "pub/sub", "lock-on", "anti-cheat", "power-up", "half-res",
          "multi-texture", "data-driven"] : List String),
        (splitWs u.toList).length = 1 ∧ (∃ c ∈ u.toList, isWordChar c = false)
        ∧ ∃ a ∈ AGENTS, u ∈ a.triggers) := by
  constructor
  · intro task t h1 h2
    have hmain : triggerMatches (lowerL task) t = false := by
      rw [triggerMatches, if_pos (by simp only [beq_iff_eq]; exact h1)]
      cases hc : (tokenize (lowerL task)).contains t.toList
      · rfl
      · exfalso
        have hmem : t.toList ∈ tokenize (lowerL task) := List.elem_iff.mp hc
        rcases h2 with ⟨c, hcmem, hcw⟩
        have := tokenize_wordChars (lowerL task) t.toList hmem c hcmem
        rw [hcw] at this
        cases this
    refine ⟨hmain, ?_, ?_⟩
    · intro a hmem
      have := (List.mem_filter.mp hmem).2
      rw [hmain] at this
      cases this
    · intro a
      unfold agentScore
      rw [foldl_score_filter_ne (lowerL task) t hmain a.triggers]
      rfl
  · decide

set_option maxRecDepth 4000 in
/-- Witness for C10 at the trigger "a*" and a task mentioning it. -/
theorem C10_nonword_triggers_witness :
    triggerMatches (lowerL "implement a* pathfinding") "a*" = false :=
  (C10_nonword_triggers.1 "implement a* pathfinding" "a*" (by decide) (by decide)).1

/-- Counterexample to C10's example list as stated: "i-frame" and
"9-slice" are not triggers of any agent in the registry (they are
subsystem keywords instead). -/
theorem C10_example_list_counterexample :
    AGENTS.all (fun a => !(a.triggers.contains "i-frame")) = true
    ∧ AGENTS.all (fun a => !(a.triggers.contains "9-slice")) = true
    ∧ (∃ s ∈ SUBSYSTEMS, "i-frame" ∈ s.keywords)
    ∧ (∃ s ∈ SUBSYSTEMS, "9-slice" ∈ s.keywords) := by
  refine ⟨by decide, by decide, ?_, ?_⟩
  · exact ⟨subTurbo, by decide, by decide⟩
  · exact ⟨subRendering, by decide, by decide⟩
